import Mathlib

/-!
Verification of the spotlight location-scoring backend.

Shallow embedding of the Python sources:
* `backend/agents/scorer.py` (`ScoringEngine`)
* `backend/services/address_generator.py` (`AddressGenerator`)
* `backend/services/concept_learner.py` (`ConceptLearner`)
* `backend/services/job_manager.py` (`JobManager`)
* `backend/services/trust_metrics.py` (`TrustMetrics`)

Python floats are modelled as exact rationals (`ℚ`) where the code only uses
field operations and comparisons, and as reals (`ℝ`) where the code applies
transcendental functions (`math.sin`, `math.sqrt`, `** 0.5`, `math.atan2`).
Python's `round` builtin (banker's rounding, round-half-to-even) is modelled
by `roundHalfEven` below, and Python's `int()` truncation toward zero by
`pyInt`.
-/

namespace Spotlight

/-- Python's `round()` on a nonnegative-denominator exact value: round to the
nearest integer, ties to the even integer (banker's rounding). -/
def roundHalfEven {α : Type} [LinearOrderedField α] [FloorRing α] (x : α) : ℤ :=
  if x - ⌊x⌋ < 1 / 2 then ⌊x⌋
  else if 1 / 2 < x - ⌊x⌋ then ⌊x⌋ + 1
  else if ⌊x⌋ % 2 = 0 then ⌊x⌋ else ⌊x⌋ + 1

/-- Python `round(x, 1)` on exact rationals. -/
def pyRound1 (q : ℚ) : ℚ := (roundHalfEven (q * 10) : ℚ) / 10

/-- Python `round(x, 2)` on exact rationals. -/
def pyRound2 (q : ℚ) : ℚ := (roundHalfEven (q * 100) : ℚ) / 100

/-- Python `round(x)` (to an int) on exact rationals. -/
def pyRound0 (q : ℚ) : ℤ := roundHalfEven q

/-- Python `int(x)`: truncation toward zero. -/
def pyInt (q : ℚ) : ℤ := if 0 ≤ q then ⌊q⌋ else ⌈q⌉

theorem roundHalfEven_mem {α : Type} [LinearOrderedField α] [FloorRing α] (x : α) :
    roundHalfEven x = ⌊x⌋ ∨ roundHalfEven x = ⌊x⌋ + 1 := by
  unfold roundHalfEven
  split_ifs <;> simp

theorem roundHalfEven_le {α : Type} [LinearOrderedField α] [FloorRing α] (x : α) :
    (roundHalfEven x : α) ≤ x + 1 / 2 := by
  have hfl : ((⌊x⌋ : ℤ) : α) ≤ x := Int.floor_le x
  have hfu : x < (⌊x⌋ : α) + 1 := Int.lt_floor_add_one x
  unfold roundHalfEven
  split_ifs with h1 h2 h3 <;> push_cast <;> linarith

theorem roundHalfEven_ge {α : Type} [LinearOrderedField α] [FloorRing α] (x : α) :
    x - 1 / 2 ≤ (roundHalfEven x : α) := by
  have hfl : ((⌊x⌋ : ℤ) : α) ≤ x := Int.floor_le x
  have hfu : x < (⌊x⌋ : α) + 1 := Int.lt_floor_add_one x
  unfold roundHalfEven
  split_ifs with h1 h2 h3 <;> push_cast <;> linarith

theorem roundHalfEven_floor_le {α : Type} [LinearOrderedField α] [FloorRing α] (x : α) :
    ⌊x⌋ ≤ roundHalfEven x := by
  rcases roundHalfEven_mem x with h | h <;> omega

theorem roundHalfEven_le_floor_add_one {α : Type} [LinearOrderedField α] [FloorRing α] (x : α) :
    roundHalfEven x ≤ ⌊x⌋ + 1 := by
  rcases roundHalfEven_mem x with h | h <;> omega

theorem roundHalfEven_mono {α : Type} [LinearOrderedField α] [FloorRing α]
    {x y : α} (h : x ≤ y) : roundHalfEven x ≤ roundHalfEven y := by
  have hf : ⌊x⌋ ≤ ⌊y⌋ := Int.floor_mono h
  rcases eq_or_lt_of_le hf with hfe | hflt
  · have hcast : ((⌊x⌋ : ℤ) : α) = ((⌊y⌋ : ℤ) : α) := by rw [hfe]
    unfold roundHalfEven
    split_ifs <;>
      first
        | omega
        | (exfalso; omega)
        | (exfalso; linarith)
  · calc roundHalfEven x ≤ ⌊x⌋ + 1 := roundHalfEven_le_floor_add_one x
    _ ≤ ⌊y⌋ := by omega
    _ ≤ roundHalfEven y := roundHalfEven_floor_le y

theorem int_le_of_cast_le_add_half {α : Type} [LinearOrderedField α]
    {n m : ℤ} (h : (n : α) ≤ (m : α) + 1 / 2) : n ≤ m := by
  have h2 : (n : α) < (m : α) + 1 := by linarith
  exact_mod_cast Int.lt_add_one_iff.mp (by exact_mod_cast h2)

theorem int_ge_of_cast_ge_sub_half {α : Type} [LinearOrderedField α]
    {n m : ℤ} (h : (m : α) - 1 / 2 ≤ (n : α)) : m ≤ n := by
  have h2 : (m : α) - 1 < (n : α) := by linarith
  have h3 : (m : α) < (n : α) + 1 := by linarith
  exact_mod_cast Int.lt_add_one_iff.mp (by exact_mod_cast h3)

/-- `roundHalfEven x ≤ m` as soon as `x ≤ m`. -/
theorem roundHalfEven_le_int {α : Type} [LinearOrderedField α] [FloorRing α]
    {x : α} {m : ℤ} (h : x ≤ (m : α)) : roundHalfEven x ≤ m :=
  int_le_of_cast_le_add_half (le_trans (roundHalfEven_le x) (by linarith))

/-- `m ≤ roundHalfEven x` as soon as `m ≤ x`. -/
theorem roundHalfEven_ge_int {α : Type} [LinearOrderedField α] [FloorRing α]
    {x : α} {m : ℤ} (h : (m : α) ≤ x) : m ≤ roundHalfEven x :=
  int_ge_of_cast_ge_sub_half (le_trans (by linarith) (roundHalfEven_ge x))

theorem pyRound1_le_int {q : ℚ} {m : ℤ} (h : q ≤ (m : ℚ)) : pyRound1 q ≤ (m : ℚ) := by
  have h10 : q * 10 ≤ ((10 * m : ℤ) : ℚ) := by push_cast; linarith
  have := roundHalfEven_le_int h10
  unfold pyRound1
  have hc : (roundHalfEven (q * 10) : ℚ) ≤ ((10 * m : ℤ) : ℚ) := by exact_mod_cast this
  push_cast at hc
  linarith

theorem pyRound1_ge_int {q : ℚ} {m : ℤ} (h : (m : ℚ) ≤ q) : (m : ℚ) ≤ pyRound1 q := by
  have h10 : ((10 * m : ℤ) : ℚ) ≤ q * 10 := by push_cast; linarith
  have := roundHalfEven_ge_int h10
  unfold pyRound1
  have hc : ((10 * m : ℤ) : ℚ) ≤ (roundHalfEven (q * 10) : ℚ) := by exact_mod_cast this
  push_cast at hc
  linarith

theorem pyRound2_le_hundredth {q : ℚ} {m : ℤ} (h : q ≤ (m : ℚ) / 100) :
    pyRound2 q ≤ (m : ℚ) / 100 := by
  have h100 : q * 100 ≤ (m : ℚ) := by linarith
  have := roundHalfEven_le_int h100
  unfold pyRound2
  have hc : (roundHalfEven (q * 100) : ℚ) ≤ (m : ℚ) := by exact_mod_cast this
  linarith

theorem pyRound2_ge_hundredth {q : ℚ} {m : ℤ} (h : (m : ℚ) / 100 ≤ q) :
    (m : ℚ) / 100 ≤ pyRound2 q := by
  have h100 : (m : ℚ) ≤ q * 100 := by linarith
  have := roundHalfEven_ge_int h100
  unfold pyRound2
  have hc : (m : ℚ) ≤ (roundHalfEven (q * 100) : ℚ) := by exact_mod_cast this
  linarith

/-! ## ScoringEngine (backend/agents/scorer.py)

The engine's `calculate_score` is a pure function of the features dictionary
and the resolved concept configuration.  Concept resolution itself
(`_get_concept_config`, database/YAML lookup) only selects the configuration
record and is outside these claims; the embedding takes the resolved
configuration directly.  A feature key that is absent maps to `none`
(`dict.get(key, default)` then yields the default, `dict.get(key)` yields
`None`); dictionaries holding an explicit `None` value under a key would make
the Python comparisons raise `TypeError` and are outside the claims. -/

/-- The five scoring weights of a concept (`concept_config["weights"]`). -/
structure ConceptWeights where
  population : ℚ
  income : ℚ
  access : ℚ
  competition : ℚ
  walkability : ℚ
deriving DecidableEq

/-- Sum of the five weights, as validated by `create_concept`
(`backend/routes/concepts.py`). -/
def ConceptWeights.total (w : ConceptWeights) : ℚ :=
  w.population + w.income + w.access + w.competition + w.walkability

/-- A resolved concept configuration (`_get_concept_config` result). -/
structure ConceptConfig where
  base_revenue_eur : ℚ
  target_income_min : ℚ
  target_income_max : ℚ
  optimal_population_density : ℚ
  target_competitors_per_1k : ℚ
  weights : ConceptWeights
deriving DecidableEq

/-- The features dictionary keys read by `calculate_score`.  `none` = key
absent. -/
structure SiteFeatures where
  population_density : Option ℚ
  median_income : Option ℚ
  nearest_metro_distance_m : Option ℚ
  nearest_tram_distance_m : Option ℚ
  competitors_per_1k_residents : Option ℚ
  walkability_poi_count : Option ℚ
  competitors_count : Option ℚ
deriving DecidableEq

namespace ScoringEngine

/-- `ScoringEngine._calculate_population_score`. -/
def calculatePopulationScore (density optimal : ℚ) : ℚ :=
  if optimal ≤ density then 100
  else if density ≤ 0 then 0
  else density / optimal * 100

/-- `ScoringEngine._calculate_income_score`. -/
def calculateIncomeScore (median_income target_min target_max : ℚ) : ℚ :=
  if median_income < target_min then
    let gap := target_min - median_income
    let penalty := min (gap / target_min * 100) 50
    max (50 - penalty) 0
  else if target_max < median_income then
    let gap := median_income - target_max
    let penalty := min (gap / target_max * 50) 25
    max (75 - penalty) 50
  else
    let middle := (target_min + target_max) / 2
    let distance_from_middle := |median_income - middle|
    let max_distance := (target_max - target_min) / 2
    let score := 100 - distance_from_middle / max_distance * 15
    max score 85

/-- `ScoringEngine._calculate_access_score`. -/
def calculateAccessScore (metro_distance_m tram_distance_m : Option ℚ) : ℚ :=
  let score : ℚ := 50
  let score :=
    match metro_distance_m with
    | none => score
    | some d =>
      if d ≤ 200 then score + 40
      else if d ≤ 500 then score + 30
      else if d ≤ 1000 then score + 15
      else score
  let score :=
    match tram_distance_m with
    | none => score
    | some d =>
      if d ≤ 100 then score + 10
      else if d ≤ 300 then score + 5
      else score
  min score 100

/-- `ScoringEngine._calculate_competition_score` (the source's local
`ratio = competitors_per_1k / target` and `penalty` are inlined). -/
def calculateCompetitionScore (competitors_per_1k target : ℚ) : ℚ :=
  if competitors_per_1k = 0 then 40
  else if 0.8 ≤ competitors_per_1k / target ∧ competitors_per_1k / target ≤ 1.2 then 100
  else if 0.5 ≤ competitors_per_1k / target ∧ competitors_per_1k / target < 0.8 then 85
  else if 1.2 < competitors_per_1k / target ∧ competitors_per_1k / target ≤ 1.5 then 75
  else if 1.5 < competitors_per_1k / target then
    max (50 - min ((competitors_per_1k / target - 1.5) * 30) 50) 20
  else 60

/-- `ScoringEngine._calculate_walkability_score`. -/
def calculateWalkabilityScore (poi_count : ℚ) : ℚ :=
  if 100 ≤ poi_count then 100
  else if 50 ≤ poi_count then 85
  else if 25 ≤ poi_count then 70
  else if 10 ≤ poi_count then 55
  else max (poi_count * 3) 20

/-- `ScoringEngine._calculate_revenue`. -/
def calculateRevenue (base_revenue population_density median_income
    competitors_per_1k : ℚ) (cfg : ConceptConfig) : ℚ :=
  let pop_multiplier := min (population_density / cfg.optimal_population_density) 1.5
  let target_mid := (cfg.target_income_min + cfg.target_income_max) / 2
  let income_multiplier :=
    if 0 < median_income then
      max (min (0.7 + median_income / target_mid * 0.3) 1.3) 0.7
    else 1
  let saturation_penalty :=
    if cfg.target_competitors_per_1k < competitors_per_1k then
      min ((competitors_per_1k / cfg.target_competitors_per_1k - 1) * 0.3) 0.4
    else 0
  max (base_revenue * pop_multiplier * income_multiplier * (1 - saturation_penalty))
    (base_revenue * 0.5)

/-- The four required fields of `_calculate_confidence`, in source order. -/
def requiredConfidenceFields (f : SiteFeatures) : List (Option ℚ) :=
  [f.population_density, f.median_income, f.competitors_count,
    f.nearest_metro_distance_m]

/-- Count of required fields that are not `None`. -/
def presentCount (f : SiteFeatures) : ℕ :=
  ((requiredConfidenceFields f).filter (·.isSome)).length

/-- `ScoringEngine._calculate_confidence`: data completeness over the four
required fields (`0.6 + completeness * 0.4`). -/
def calculateConfidence (f : SiteFeatures) : ℚ :=
  0.6 + (presentCount f : ℚ) / 4 * 0.4

/-- The confidence-driven revenue band (`calculate_score`, line 134). -/
def bandPercent (confidence : ℚ) : ℚ := 0.15 + 0.15 * (1 - confidence)

/-- Unrounded `revenue_mid` of one scoring call. -/
def revenueMidRaw (f : SiteFeatures) (cfg : ConceptConfig) : ℚ :=
  calculateRevenue cfg.base_revenue_eur (f.population_density.getD 0)
    (f.median_income.getD 0) (f.competitors_per_1k_residents.getD 0) cfg

/-- Unrounded `revenue_low` of one scoring call. -/
def revenueLowRaw (f : SiteFeatures) (cfg : ConceptConfig) : ℚ :=
  revenueMidRaw f cfg * (1 - bandPercent (calculateConfidence f))

/-- Unrounded `revenue_high` of one scoring call. -/
def revenueHighRaw (f : SiteFeatures) (cfg : ConceptConfig) : ℚ :=
  revenueMidRaw f cfg * (1 + bandPercent (calculateConfidence f))

/-- Result dictionary of `calculate_score` (numeric fields). -/
structure ScoreResult where
  score : ℚ
  revenue_low : ℤ
  revenue_mid : ℤ
  revenue_high : ℤ
  confidence : ℚ
  component_population : ℚ
  component_income : ℚ
  component_access : ℚ
  component_competition : ℚ
  component_walkability : ℚ
deriving DecidableEq

/-- The unrounded weighted overall score of `calculate_score`. -/
def overallScore (f : SiteFeatures) (cfg : ConceptConfig) : ℚ :=
  cfg.weights.population *
      calculatePopulationScore (f.population_density.getD 0)
        cfg.optimal_population_density +
    cfg.weights.income *
      calculateIncomeScore (f.median_income.getD 0) cfg.target_income_min
        cfg.target_income_max +
    cfg.weights.access *
      calculateAccessScore f.nearest_metro_distance_m f.nearest_tram_distance_m +
    cfg.weights.competition *
      calculateCompetitionScore (f.competitors_per_1k_residents.getD 0)
        cfg.target_competitors_per_1k +
    cfg.weights.walkability *
      calculateWalkabilityScore (f.walkability_poi_count.getD 0)

/-- `ScoringEngine.calculate_score` on a resolved concept configuration. -/
def calculateScore (f : SiteFeatures) (cfg : ConceptConfig) : ScoreResult :=
  { score := pyRound1 (overallScore f cfg)
    revenue_low := pyRound0 (revenueLowRaw f cfg)
    revenue_mid := pyRound0 (revenueMidRaw f cfg)
    revenue_high := pyRound0 (revenueHighRaw f cfg)
    confidence := pyRound2 (calculateConfidence f)
    component_population :=
      pyRound1 (calculatePopulationScore (f.population_density.getD 0)
        cfg.optimal_population_density)
    component_income :=
      pyRound1 (calculateIncomeScore (f.median_income.getD 0) cfg.target_income_min
        cfg.target_income_max)
    component_access :=
      pyRound1 (calculateAccessScore f.nearest_metro_distance_m f.nearest_tram_distance_m)
    component_competition :=
      pyRound1 (calculateCompetitionScore (f.competitors_per_1k_residents.getD 0)
        cfg.target_competitors_per_1k)
    component_walkability :=
      pyRound1 (calculateWalkabilityScore (f.walkability_poi_count.getD 0)) }

/-- Weight constraints under which a concept configuration is accepted:
field bounds `ge=0, le=1` from `ConceptWeights` (pydantic) and the
`0.95 <= total <= 1.05` check of `create_concept`/`update_concept`
(`backend/routes/concepts.py`). -/
def WeightsAccepted (w : ConceptWeights) : Prop :=
  0 ≤ w.population ∧ w.population ≤ 1 ∧
    0 ≤ w.income ∧ w.income ≤ 1 ∧
    0 ≤ w.access ∧ w.access ≤ 1 ∧
    0 ≤ w.competition ∧ w.competition ≤ 1 ∧
    0 ≤ w.walkability ∧ w.walkability ≤ 1 ∧
    0.95 ≤ w.total ∧ w.total ≤ 1.05

instance (w : ConceptWeights) : Decidable (WeightsAccepted w) := by
  unfold WeightsAccepted; infer_instance

theorem calculatePopulationScore_bounds (density optimal : ℚ) (hopt : 0 < optimal) :
    0 ≤ calculatePopulationScore density optimal ∧
      calculatePopulationScore density optimal ≤ 100 := by
  unfold calculatePopulationScore
  split_ifs with h1 h2
  · norm_num
  · norm_num
  · push_neg at h1 h2
    have hdiv : density / optimal ≤ 1 := by
      rw [div_le_one hopt]; linarith
    have hdiv0 : 0 ≤ density / optimal := div_nonneg (le_of_lt h2) (le_of_lt hopt)
    constructor <;> nlinarith

theorem calculateIncomeScore_bounds (median_income target_min target_max : ℚ)
    (h0 : 0 < target_min) (hle : target_min ≤ target_max) :
    0 ≤ calculateIncomeScore median_income target_min target_max ∧
      calculateIncomeScore median_income target_min target_max ≤ 100 := by
  unfold calculateIncomeScore
  split_ifs with ha hb
  · have hgap : 0 < target_min - median_income := by linarith
    have hpen : 0 ≤ min ((target_min - median_income) / target_min * 100) 50 :=
      le_min (by positivity) (by norm_num)
    refine ⟨le_max_right _ _, max_le (by linarith) (by norm_num)⟩
  · have hmax0 : 0 < target_max := by linarith
    have hgap : 0 < median_income - target_max := by linarith
    have hpen : 0 ≤ min ((median_income - target_max) / target_max * 50) 25 :=
      le_min (by positivity) (by norm_num)
    refine ⟨le_trans (by norm_num) (le_max_right _ _), max_le (by linarith) (by norm_num)⟩
  · have hdist : (0:ℚ) ≤ |median_income - (target_min + target_max) / 2| := abs_nonneg _
    have hden : (0:ℚ) ≤ (target_max - target_min) / 2 := by linarith
    have hterm : (0:ℚ) ≤
        |median_income - (target_min + target_max) / 2| / ((target_max - target_min) / 2) * 15 := by
      positivity
    exact ⟨le_trans (by norm_num) (le_max_right _ _), max_le (by linarith) (by norm_num)⟩

theorem calculateAccessScore_bounds (metro tram : Option ℚ) :
    0 ≤ calculateAccessScore metro tram ∧ calculateAccessScore metro tram ≤ 100 := by
  unfold calculateAccessScore
  rcases metro with _ | d <;> rcases tram with _ | e <;> dsimp only <;>
    (try split_ifs) <;> norm_num [min_def]

theorem calculateCompetitionScore_bounds (c target : ℚ) :
    0 ≤ calculateCompetitionScore c target ∧ calculateCompetitionScore c target ≤ 100 := by
  unfold calculateCompetitionScore
  split_ifs with h1 h2 h3 h4 h5
  · norm_num
  · norm_num
  · norm_num
  · norm_num
  · have hp : 0 ≤ min ((c / target - 1.5) * 30) 50 :=
      le_min (by nlinarith) (by norm_num)
    exact ⟨le_trans (by norm_num) (le_max_right _ _), max_le (by linarith) (by norm_num)⟩
  · norm_num

theorem calculateWalkabilityScore_bounds (poi : ℚ) :
    0 ≤ calculateWalkabilityScore poi ∧ calculateWalkabilityScore poi ≤ 100 := by
  unfold calculateWalkabilityScore
  split_ifs with h1 h2 h3 h4
  · norm_num
  · norm_num
  · norm_num
  · norm_num
  · push_neg at h4
    exact ⟨le_trans (by norm_num) (le_max_right _ _), max_le (by linarith) (by norm_num)⟩

theorem presentCount_le_four (f : SiteFeatures) : presentCount f ≤ 4 := by
  have h := List.length_filter_le (fun o : Option ℚ => o.isSome)
    (requiredConfidenceFields f)
  simpa [presentCount, requiredConfidenceFields] using h

theorem calculateConfidence_bounds (f : SiteFeatures) :
    0.6 ≤ calculateConfidence f ∧ calculateConfidence f ≤ 1 := by
  unfold calculateConfidence
  have h4 : (presentCount f : ℚ) ≤ 4 := by exact_mod_cast presentCount_le_four f
  have h0 : (0:ℚ) ≤ (presentCount f : ℚ) := Nat.cast_nonneg _
  constructor <;> nlinarith

theorem overallScore_bounds (f : SiteFeatures) (cfg : ConceptConfig)
    (hw : WeightsAccepted cfg.weights)
    (hopt : 0 < cfg.optimal_population_density)
    (hmin : 0 < cfg.target_income_min)
    (hrange : cfg.target_income_min ≤ cfg.target_income_max) :
    0 ≤ overallScore f cfg ∧ overallScore f cfg ≤ 100 * cfg.weights.total := by
  obtain ⟨hp0, hp1, hi0, hi1, ha0, ha1, hc0, hc1, hk0, hk1, _, _⟩ := hw
  obtain ⟨sp0, sp1⟩ := calculatePopulationScore_bounds (f.population_density.getD 0)
    cfg.optimal_population_density hopt
  obtain ⟨si0, si1⟩ := calculateIncomeScore_bounds (f.median_income.getD 0)
    cfg.target_income_min cfg.target_income_max hmin hrange
  obtain ⟨sa0, sa1⟩ := calculateAccessScore_bounds f.nearest_metro_distance_m
    f.nearest_tram_distance_m
  obtain ⟨sc0, sc1⟩ := calculateCompetitionScore_bounds
    (f.competitors_per_1k_residents.getD 0) cfg.target_competitors_per_1k
  obtain ⟨sk0, sk1⟩ := calculateWalkabilityScore_bounds (f.walkability_poi_count.getD 0)
  unfold overallScore ConceptWeights.total
  constructor
  · have := mul_nonneg hp0 sp0
    have := mul_nonneg hi0 si0
    have := mul_nonneg ha0 sa0
    have := mul_nonneg hc0 sc0
    have := mul_nonneg hk0 sk0
    linarith
  · have t1 := mul_le_mul_of_nonneg_left sp1 hp0
    have t2 := mul_le_mul_of_nonneg_left si1 hi0
    have t3 := mul_le_mul_of_nonneg_left sa1 ha0
    have t4 := mul_le_mul_of_nonneg_left sc1 hc0
    have t5 := mul_le_mul_of_nonneg_left sk1 hk0
    linarith

end ScoringEngine

/-! ### Concrete scoring inputs used by witnesses and counterexamples -/

/-- Weights that pass the `create_concept` validation with total `1.05`,
the upper end of the accepted tolerance. -/
def exampleWeights : ConceptWeights :=
  { population := 0.25, income := 0.2, access := 0.2, competition := 0.2,
    walkability := 0.2 }

/-- A resolvable concept configuration (all `create_concept` field constraints
hold). -/
def exampleConfig : ConceptConfig :=
  { base_revenue_eur := 100000, target_income_min := 30000,
    target_income_max := 50000, optimal_population_density := 5000,
    target_competitors_per_1k := 1, weights := exampleWeights }

/-- Features that drive every one of the five component scores to `100`. -/
def exampleFeatures : SiteFeatures :=
  { population_density := some 5000, median_income := some 40000,
    nearest_metro_distance_m := some 100, nearest_tram_distance_m := some 50,
    competitors_per_1k_residents := some 1, walkability_poi_count := some 100,
    competitors_count := some 3 }

theorem roundHalfEven_intCast {α : Type} [LinearOrderedField α] [FloorRing α]
    (n : ℤ) : roundHalfEven ((n : α)) = n := by
  unfold roundHalfEven
  rw [Int.floor_intCast]
  rw [if_pos]
  rw [sub_self]
  norm_num

theorem pyRound1_eq_int {q : ℚ} {n : ℤ} (h : q = (n : ℚ)) : pyRound1 q = (n : ℚ) := by
  unfold pyRound1
  have h10 : q * 10 = ((10 * n : ℤ) : ℚ) := by push_cast; rw [h]; ring
  rw [h10, roundHalfEven_intCast]
  push_cast
  ring

/-! ### Claim C1 -/

/-- C1, as stated, is false: with accepted weights summing to `1.05` (each in
`[0,1]`, total inside the `0.95–1.05` tolerance of `create_concept`) and
features pushing all five component scores to `100`, `calculate_score`
returns a score of `105 > 100`. -/
theorem c1_score_range_counterexample :
    ScoringEngine.WeightsAccepted exampleConfig.weights ∧
      0 < exampleConfig.optimal_population_density ∧
      0 < exampleConfig.target_income_min ∧
      exampleConfig.target_income_min < exampleConfig.target_income_max ∧
      (ScoringEngine.calculateScore exampleFeatures exampleConfig).score = 105 ∧
      ¬(ScoringEngine.calculateScore exampleFeatures exampleConfig).score ≤ 100 := by
  have hover : ScoringEngine.overallScore exampleFeatures exampleConfig = 105 := by
    norm_num [ScoringEngine.overallScore, exampleFeatures, exampleConfig,
      exampleWeights, ScoringEngine.calculatePopulationScore,
      ScoringEngine.calculateIncomeScore, ScoringEngine.calculateAccessScore,
      ScoringEngine.calculateCompetitionScore, ScoringEngine.calculateWalkabilityScore]
  have hscore : (ScoringEngine.calculateScore exampleFeatures exampleConfig).score = 105 := by
    show pyRound1 (ScoringEngine.overallScore exampleFeatures exampleConfig) = 105
    have : pyRound1 (ScoringEngine.overallScore exampleFeatures exampleConfig)
        = ((105 : ℤ) : ℚ) :=
      pyRound1_eq_int (by rw [hover]; norm_num)
    rw [this]; norm_num
  refine ⟨?_, ?_, ?_, ?_, hscore, ?_⟩
  · norm_num [ScoringEngine.WeightsAccepted, ConceptWeights.total, exampleConfig,
      exampleWeights]
  · norm_num [exampleConfig]
  · norm_num [exampleConfig]
  · norm_num [exampleConfig]
  · rw [hscore]; norm_num

/-- C1 (amended): for every features dictionary and every resolvable concept
configuration (weights each in `[0,1]`, total within the accepted
`0.95–1.05` tolerance, positive targets, a genuine income range),
`calculate_score` returns `0 ≤ score ≤ 105` — more precisely the unrounded
score is at most `100 × (sum of weights)`, so `score ≤ 100` holds whenever
the weights sum to at most `1.0` — and `0 ≤ confidence ≤ 1`. -/
theorem c1_score_confidence_bounds (f : SiteFeatures) (cfg : ConceptConfig)
    (hw : ScoringEngine.WeightsAccepted cfg.weights)
    (hopt : 0 < cfg.optimal_population_density)
    (hmin : 0 < cfg.target_income_min)
    (hrange : cfg.target_income_min ≤ cfg.target_income_max) :
    0 ≤ (ScoringEngine.calculateScore f cfg).score ∧
      (ScoringEngine.calculateScore f cfg).score ≤ 105 ∧
      (cfg.weights.total ≤ 1 → (ScoringEngine.calculateScore f cfg).score ≤ 100) ∧
      0 ≤ (ScoringEngine.calculateScore f cfg).confidence ∧
      (ScoringEngine.calculateScore f cfg).confidence ≤ 1 := by
  obtain ⟨hov0, hov1⟩ := ScoringEngine.overallScore_bounds f cfg hw hopt hmin hrange
  have htot : cfg.weights.total ≤ 1.05 := hw.2.2.2.2.2.2.2.2.2.2.2
  obtain ⟨hc0, hc1⟩ := ScoringEngine.calculateConfidence_bounds f
  refine ⟨?_, ?_, ?_, ?_, ?_⟩
  · show (0:ℚ) ≤ pyRound1 (ScoringEngine.overallScore f cfg)
    have := pyRound1_ge_int (m := 0) (q := ScoringEngine.overallScore f cfg)
      (by exact_mod_cast hov0)
    simpa using this
  · show pyRound1 (ScoringEngine.overallScore f cfg) ≤ 105
    have := pyRound1_le_int (m := 105) (q := ScoringEngine.overallScore f cfg)
      (by push_cast; nlinarith)
    simpa using this
  · intro h1
    show pyRound1 (ScoringEngine.overallScore f cfg) ≤ 100
    have := pyRound1_le_int (m := 100) (q := ScoringEngine.overallScore f cfg)
      (by push_cast; nlinarith)
    simpa using this
  · show (0:ℚ) ≤ pyRound2 (ScoringEngine.calculateConfidence f)
    have := pyRound2_ge_hundredth (m := 0) (q := ScoringEngine.calculateConfidence f)
      (by push_cast; linarith)
    simpa using this
  · show pyRound2 (ScoringEngine.calculateConfidence f) ≤ 1
    have := pyRound2_le_hundredth (m := 100) (q := ScoringEngine.calculateConfidence f)
      (by push_cast; linarith)
    have h100 : ((100 : ℤ) : ℚ) / 100 = 1 := by norm_num
    rw [h100] at this
    exact this

/-- Witness for C1: the amended bounds instantiated at the concrete example
configuration and features. -/
theorem c1_score_confidence_bounds_witness :
    (ScoringEngine.WeightsAccepted exampleConfig.weights ∧
        0 < exampleConfig.optimal_population_density ∧
        0 < exampleConfig.target_income_min ∧
        exampleConfig.target_income_min ≤ exampleConfig.target_income_max) ∧
      0 ≤ (ScoringEngine.calculateScore exampleFeatures exampleConfig).score ∧
      (ScoringEngine.calculateScore exampleFeatures exampleConfig).score ≤ 105 := by
  have hw : ScoringEngine.WeightsAccepted exampleConfig.weights := by
    norm_num [ScoringEngine.WeightsAccepted, ConceptWeights.total, exampleConfig,
      exampleWeights]
  have h := c1_score_confidence_bounds exampleFeatures exampleConfig hw
    (by norm_num [exampleConfig]) (by norm_num [exampleConfig])
    (by norm_num [exampleConfig])
  exact ⟨⟨hw, by norm_num [exampleConfig], by norm_num [exampleConfig],
    by norm_num [exampleConfig]⟩, h.1, h.2.1⟩

/-! ### Claim C2 -/

/-- C2: for every scoring call with non-negative base revenue, the revenue
band half-width equals `0.15 + 0.15 × (1 − confidence)`, lies in
`[0.15, 0.30]`, and is applied symmetrically around `revenue_mid`
(`mid − low = high − mid` on the unrounded band), so the returned result
always satisfies `revenue_low ≤ revenue_mid ≤ revenue_high`. -/
theorem c2_revenue_band (f : SiteFeatures) (cfg : ConceptConfig)
    (hbase : 0 ≤ cfg.base_revenue_eur) :
    ScoringEngine.bandPercent (ScoringEngine.calculateConfidence f)
        = 0.15 + 0.15 * (1 - ScoringEngine.calculateConfidence f) ∧
      0.15 ≤ ScoringEngine.bandPercent (ScoringEngine.calculateConfidence f) ∧
      ScoringEngine.bandPercent (ScoringEngine.calculateConfidence f) ≤ 0.30 ∧
      ScoringEngine.revenueMidRaw f cfg - ScoringEngine.revenueLowRaw f cfg
        = ScoringEngine.revenueHighRaw f cfg - ScoringEngine.revenueMidRaw f cfg ∧
      (ScoringEngine.calculateScore f cfg).revenue_low
        ≤ (ScoringEngine.calculateScore f cfg).revenue_mid ∧
      (ScoringEngine.calculateScore f cfg).revenue_mid
        ≤ (ScoringEngine.calculateScore f cfg).revenue_high := by
  obtain ⟨hc0, hc1⟩ := ScoringEngine.calculateConfidence_bounds f
  have hband0 : 0.15 ≤ ScoringEngine.bandPercent (ScoringEngine.calculateConfidence f) := by
    unfold ScoringEngine.bandPercent; linarith
  have hband1 : ScoringEngine.bandPercent (ScoringEngine.calculateConfidence f) ≤ 0.30 := by
    unfold ScoringEngine.bandPercent; linarith
  have hmid0 : 0 ≤ ScoringEngine.revenueMidRaw f cfg := by
    have hfloor : cfg.base_revenue_eur * 0.5 ≤ ScoringEngine.revenueMidRaw f cfg := by
      unfold ScoringEngine.revenueMidRaw ScoringEngine.calculateRevenue
      exact le_max_right _ _
    nlinarith
  have hlowmid : ScoringEngine.revenueLowRaw f cfg ≤ ScoringEngine.revenueMidRaw f cfg := by
    unfold ScoringEngine.revenueLowRaw
    nlinarith
  have hmidhigh : ScoringEngine.revenueMidRaw f cfg ≤ ScoringEngine.revenueHighRaw f cfg := by
    unfold ScoringEngine.revenueHighRaw
    nlinarith
  refine ⟨rfl, hband0, hband1, ?_, ?_, ?_⟩
  · unfold ScoringEngine.revenueLowRaw ScoringEngine.revenueHighRaw
    ring
  · exact roundHalfEven_mono hlowmid
  · exact roundHalfEven_mono hmidhigh

/-- Witness for C2: the revenue-band properties instantiated at the concrete
example configuration and features. -/
theorem c2_revenue_band_witness :
    (0 : ℚ) ≤ exampleConfig.base_revenue_eur ∧
      (ScoringEngine.calculateScore exampleFeatures exampleConfig).revenue_low
        ≤ (ScoringEngine.calculateScore exampleFeatures exampleConfig).revenue_mid ∧
      (ScoringEngine.calculateScore exampleFeatures exampleConfig).revenue_mid
        ≤ (ScoringEngine.calculateScore exampleFeatures exampleConfig).revenue_high := by
  have hb : (0 : ℚ) ≤ exampleConfig.base_revenue_eur := by norm_num [exampleConfig]
  have h := c2_revenue_band exampleFeatures exampleConfig hb
  exact ⟨hb, h.2.2.2.2.1, h.2.2.2.2.2⟩

/-! ### Claim C3 -/

/-- C3: the income-fit factor. Below `target_min` the score is reduced (at
most 50) by a penalty linear in the gap — non-increasing as the gap grows —
and reaches `0` by the time the gap reaches `target_min` (at income `0` the
score is exactly `0`; because the penalty is capped at `50`, the score
already hits `0` once the gap is half of `target_min`). Above `target_max`
the penalty is at most `25` (score in `[50, 75]`). Within
`[target_min, target_max]` the score lies in `[85, 100]` and peaks — at
`100`, the global maximum — at the midpoint of the range. -/
theorem c3_income_fit (tmin tmax : ℚ) (h0 : 0 < tmin) (hlt : tmin < tmax) :
    (∀ i j, i ≤ j → j < tmin →
        ScoringEngine.calculateIncomeScore i tmin tmax
          ≤ ScoringEngine.calculateIncomeScore j tmin tmax) ∧
      (∀ i, i < tmin → ScoringEngine.calculateIncomeScore i tmin tmax ≤ 50) ∧
      ScoringEngine.calculateIncomeScore 0 tmin tmax = 0 ∧
      (∀ i, tmax < i →
        50 ≤ ScoringEngine.calculateIncomeScore i tmin tmax ∧
          ScoringEngine.calculateIncomeScore i tmin tmax ≤ 75) ∧
      (∀ i, tmin ≤ i → i ≤ tmax →
        85 ≤ ScoringEngine.calculateIncomeScore i tmin tmax ∧
          ScoringEngine.calculateIncomeScore i tmin tmax ≤ 100) ∧
      ScoringEngine.calculateIncomeScore ((tmin + tmax) / 2) tmin tmax = 100 ∧
      (∀ i, ScoringEngine.calculateIncomeScore i tmin tmax ≤ 100) := by
  have htmax : 0 < tmax := lt_trans h0 hlt
  have hmono : ∀ i j, i ≤ j → j < tmin →
      ScoringEngine.calculateIncomeScore i tmin tmax
        ≤ ScoringEngine.calculateIncomeScore j tmin tmax := by
    intro i j hij hj
    have hi : i < tmin := lt_of_le_of_lt hij hj
    unfold ScoringEngine.calculateIncomeScore
    rw [if_pos hi, if_pos hj]
    dsimp only
    have hquot : (tmin - j) / tmin ≤ (tmin - i) / tmin := by
      gcongr
    have hmin : min ((tmin - j) / tmin * 100) 50 ≤ min ((tmin - i) / tmin * 100) 50 := by
      gcongr
    exact max_le_max (by linarith) le_rfl
  have hbelow : ∀ i, i < tmin → ScoringEngine.calculateIncomeScore i tmin tmax ≤ 50 := by
    intro i hi
    unfold ScoringEngine.calculateIncomeScore
    rw [if_pos hi]
    dsimp only
    have hpen : 0 ≤ min ((tmin - i) / tmin * 100) 50 := by
      apply le_min ?_ (by norm_num)
      have : 0 < tmin - i := by linarith
      positivity
    exact max_le (by linarith) (by norm_num)
  have hzero : ScoringEngine.calculateIncomeScore 0 tmin tmax = 0 := by
    unfold ScoringEngine.calculateIncomeScore
    rw [if_pos h0]
    dsimp only
    rw [sub_zero, div_self (ne_of_gt h0)]
    norm_num
  have habove : ∀ i, tmax < i →
      50 ≤ ScoringEngine.calculateIncomeScore i tmin tmax ∧
        ScoringEngine.calculateIncomeScore i tmin tmax ≤ 75 := by
    intro i hi
    unfold ScoringEngine.calculateIncomeScore
    rw [if_neg (by push_neg; linarith), if_pos hi]
    dsimp only
    have hpen0 : 0 ≤ min ((i - tmax) / tmax * 50) 25 := by
      apply le_min ?_ (by norm_num)
      have : 0 < i - tmax := by linarith
      positivity
    exact ⟨le_max_right _ _, max_le (by linarith) (by norm_num)⟩
  have hin : ∀ i, tmin ≤ i → i ≤ tmax →
      85 ≤ ScoringEngine.calculateIncomeScore i tmin tmax ∧
        ScoringEngine.calculateIncomeScore i tmin tmax ≤ 100 := by
    intro i hge hle
    unfold ScoringEngine.calculateIncomeScore
    rw [if_neg (not_lt.mpr hge), if_neg (not_lt.mpr hle)]
    dsimp only
    have hterm : (0:ℚ) ≤
        |i - (tmin + tmax) / 2| / ((tmax - tmin) / 2) * 15 := by
      have h1 : (0:ℚ) ≤ |i - (tmin + tmax) / 2| := abs_nonneg _
      have h2 : (0:ℚ) ≤ (tmax - tmin) / 2 := by linarith
      positivity
    exact ⟨le_max_right _ _, max_le (by linarith) (by norm_num)⟩
  have hpeak : ScoringEngine.calculateIncomeScore ((tmin + tmax) / 2) tmin tmax = 100 := by
    unfold ScoringEngine.calculateIncomeScore
    rw [if_neg (by push_neg; linarith), if_neg (by push_neg; linarith)]
    dsimp only
    rw [sub_self, abs_zero, zero_div, zero_mul, sub_zero]
    exact max_eq_left (by norm_num)
  refine ⟨hmono, hbelow, hzero, habove, hin, hpeak, ?_⟩
  intro i
  rcases lt_or_le i tmin with h | h
  · linarith [hbelow i h]
  · rcases le_or_lt i tmax with h2 | h2
    · exact (hin i h h2).2
    · linarith [(habove i h2).2]

/-- Witness for C3: the income-fit properties instantiated at the target
range `[30000, 50000]`; in particular the peak value at the midpoint. -/
theorem c3_income_fit_witness :
    (0 : ℚ) < 30000 ∧ (30000 : ℚ) < 50000 ∧
      ScoringEngine.calculateIncomeScore ((30000 + 50000) / 2) 30000 50000 = 100 := by
  refine ⟨by norm_num, by norm_num, ?_⟩
  exact (c3_income_fit 30000 50000 (by norm_num) (by norm_num)).2.2.2.2.2.1

/-! ### Claim C4 -/

/-- C4: the competition factor is the claimed piecewise function of
`ratio = competitors_per_1k / target`: `0 ↦ 40`; `[0.8, 1.2] ↦ 100`;
`[0.5, 0.8) ↦ 85`; `(1.2, 1.5] ↦ 75`; `ratio > 1.5 ↦ 50` minus a penalty of
at most `50`, floored at `20` (in particular ratio `3.0` yields a value
`≤ 50`); any other low nonzero ratio `↦ 60`. -/
theorem c4_competition_piecewise (c target : ℚ) (ht : 0 < target) :
    (c = 0 → ScoringEngine.calculateCompetitionScore c target = 40) ∧
      (0.8 ≤ c / target → c / target ≤ 1.2 →
        ScoringEngine.calculateCompetitionScore c target = 100) ∧
      (0.5 ≤ c / target → c / target < 0.8 →
        ScoringEngine.calculateCompetitionScore c target = 85) ∧
      (1.2 < c / target → c / target ≤ 1.5 →
        ScoringEngine.calculateCompetitionScore c target = 75) ∧
      (1.5 < c / target →
        ScoringEngine.calculateCompetitionScore c target
            = max (50 - min ((c / target - 1.5) * 30) 50) 20 ∧
          20 ≤ ScoringEngine.calculateCompetitionScore c target ∧
          ScoringEngine.calculateCompetitionScore c target ≤ 50) ∧
      (0 < c / target → c / target < 0.5 →
        ScoringEngine.calculateCompetitionScore c target = 60) ∧
      (c / target = 3 → ScoringEngine.calculateCompetitionScore c target ≤ 50) := by
  have hne : ∀ r : ℚ, 0 < c / target → c ≠ 0 := by
    intro _ hr hc
    rw [hc, zero_div] at hr
    exact lt_irrefl 0 hr
  have hcase5 : 1.5 < c / target →
      ScoringEngine.calculateCompetitionScore c target
          = max (50 - min ((c / target - 1.5) * 30) 50) 20 ∧
        20 ≤ ScoringEngine.calculateCompetitionScore c target ∧
        ScoringEngine.calculateCompetitionScore c target ≤ 50 := by
    intro hr
    have heq : ScoringEngine.calculateCompetitionScore c target
        = max (50 - min ((c / target - 1.5) * 30) 50) 20 := by
      unfold ScoringEngine.calculateCompetitionScore
      rw [if_neg (hne 0 (by linarith)), if_neg (by rintro ⟨_, h2⟩; linarith),
        if_neg (by rintro ⟨_, h2⟩; linarith), if_neg (by rintro ⟨h1, _⟩; linarith),
        if_pos hr]
    have hpen : 0 ≤ min ((c / target - 1.5) * 30) 50 :=
      le_min (by nlinarith) (by norm_num)
    refine ⟨heq, ?_, ?_⟩
    · rw [heq]; exact le_max_right _ _
    · rw [heq]; exact max_le (by linarith) (by norm_num)
  refine ⟨?_, ?_, ?_, ?_, hcase5, ?_, ?_⟩
  · intro hc
    unfold ScoringEngine.calculateCompetitionScore
    rw [if_pos hc]
  · intro h1 h2
    unfold ScoringEngine.calculateCompetitionScore
    rw [if_neg (hne 0 (by linarith)), if_pos ⟨h1, h2⟩]
  · intro h1 h2
    unfold ScoringEngine.calculateCompetitionScore
    rw [if_neg (hne 0 (by linarith)), if_neg (by rintro ⟨h3, _⟩; linarith),
      if_pos ⟨h1, h2⟩]
  · intro h1 h2
    unfold ScoringEngine.calculateCompetitionScore
    rw [if_neg (hne 0 (by linarith)), if_neg (by rintro ⟨_, h3⟩; linarith),
      if_neg (by rintro ⟨_, h3⟩; linarith), if_pos ⟨h1, h2⟩]
  · intro h1 h2
    unfold ScoringEngine.calculateCompetitionScore
    rw [if_neg (hne 0 h1), if_neg (by rintro ⟨h3, _⟩; linarith),
      if_neg (by rintro ⟨h3, _⟩; linarith), if_neg (by rintro ⟨h3, _⟩; linarith),
      if_neg (by intro h3; linarith)]
  · intro hr
    exact (hcase5 (by rw [hr]; norm_num)).2.2

/-- Witness for C4: with target ratio `1`, `competitors_per_1k = 3` gives
ratio `3.0` and a competition score of at most `50`. -/
theorem c4_competition_piecewise_witness :
    (0 : ℚ) < 1 ∧ (3 : ℚ) / 1 = 3 ∧
      ScoringEngine.calculateCompetitionScore 3 1 ≤ 50 := by
  refine ⟨by norm_num, by norm_num, ?_⟩
  exact (c4_competition_piecewise 3 1 (by norm_num)).2.2.2.2.2.2 (by norm_num)

/-! ## Stable sorting

Python's `sorted`/`list.sort` are stable.  They are modelled by an insertion
sort: `r b a` reads "`b` may stay in front of `a`", so an element is inserted
behind every earlier element it ties with — exactly Python's stability. -/

/-- Insert `a` into `l`, keeping every prefix element `b` with `r b a`. -/
def insertSorted {α : Type} (r : α → α → Prop) [DecidableRel r] (a : α) :
    List α → List α
  | [] => [a]
  | b :: l => if r b a then b :: insertSorted r a l else a :: b :: l

/-- Stable sort by repeated insertion (left fold, preserving tie order). -/
def pySorted {α : Type} (r : α → α → Prop) [DecidableRel r] (l : List α) :
    List α :=
  l.foldl (fun acc a => insertSorted r a acc) []

theorem insertSorted_perm {α : Type} (r : α → α → Prop) [DecidableRel r]
    (a : α) (l : List α) : List.Perm (insertSorted r a l) (a :: l) := by
  induction l with
  | nil => rfl
  | cons b l ih =>
    unfold insertSorted
    split_ifs with h
    · exact ((ih.cons b).trans (List.Perm.swap a b l))
    · rfl

theorem pySorted_perm {α : Type} (r : α → α → Prop) [DecidableRel r]
    (l : List α) : List.Perm (pySorted r l) l := by
  have aux : ∀ (l acc : List α),
      List.Perm (l.foldl (fun acc a => insertSorted r a acc) acc) (acc ++ l) := by
    intro l
    induction l with
    | nil => intro acc; simp
    | cons x l ih =>
      intro acc
      refine ((ih (insertSorted r x acc)).trans ?_)
      exact ((insertSorted_perm r x acc).append_right l).trans List.perm_middle.symm
  simpa using aux l []

theorem mem_insertSorted {α : Type} (r : α → α → Prop) [DecidableRel r]
    {a x : α} {l : List α} :
    x ∈ insertSorted r a l ↔ x = a ∨ x ∈ l := by
  rw [(insertSorted_perm r a l).mem_iff]
  simp

theorem insertSorted_pairwise {α : Type} (r : α → α → Prop) [DecidableRel r]
    (htot : ∀ a b, ¬r a b → r b a) (htrans : ∀ a b c, r a b → r b c → r a c)
    {a : α} {l : List α} (hl : l.Pairwise r) :
    (insertSorted r a l).Pairwise r := by
  induction l with
  | nil => simp [insertSorted]
  | cons b l ih =>
    rw [List.pairwise_cons] at hl
    obtain ⟨hb, hl'⟩ := hl
    unfold insertSorted
    split_ifs with h
    · rw [List.pairwise_cons]
      refine ⟨?_, ih hl'⟩
      intro x hx
      rcases (mem_insertSorted r).mp hx with rfl | hx
      · exact h
      · exact hb x hx
    · have hab : r a b := htot b a h
      rw [List.pairwise_cons]
      refine ⟨?_, List.pairwise_cons.mpr ⟨hb, hl'⟩⟩
      intro x hx
      rcases List.mem_cons.mp hx with rfl | hx
      · exact hab
      · exact htrans a b x hab (hb x hx)

theorem pySorted_pairwise {α : Type} (r : α → α → Prop) [DecidableRel r]
    (htot : ∀ a b, ¬r a b → r b a) (htrans : ∀ a b c, r a b → r b c → r a c)
    (l : List α) : (pySorted r l).Pairwise r := by
  have aux : ∀ (l acc : List α), acc.Pairwise r →
      (l.foldl (fun acc a => insertSorted r a acc) acc).Pairwise r := by
    intro l
    induction l with
    | nil => intro acc h; exact h
    | cons x l ih =>
      intro acc h
      exact ih _ (insertSorted_pairwise r htot htrans h)
  exact aux l [] (by simp)

/-- Python `statistics.median`: sort ascending, take the middle element (odd
length) or the mean of the two middle elements (even length). -/
def pyMedian (l : List ℚ) : ℚ :=
  if l.length % 2 = 1 then (pySorted (· ≤ ·) l).getD (l.length / 2) 0
  else ((pySorted (· ≤ ·) l).getD (l.length / 2 - 1) 0
    + (pySorted (· ≤ ·) l).getD (l.length / 2) 0) / 2

/-! ## AddressGenerator (backend/services/address_generator.py)

Coordinates and trigonometry use `ℝ` (the haversine formula applies `sin`,
`cos`, `sqrt`, `atan2`); candidate records carry exact rational scores and
coordinates, coerced to `ℝ` for distance computation. -/

/-- A generated candidate, restricted to the dictionary entries that
deduplication and ranking read (`address`, `lat`, `lng`, `score`); the other
score-payload entries do not influence `_deduplicate_by_distance` or the
sort. -/
structure Candidate where
  address : String
  lat : ℚ
  lng : ℚ
  score : ℚ
deriving DecidableEq

namespace AddressGenerator

/-- Python's `math.radians`. -/
noncomputable def radiansDeg (x : ℝ) : ℝ := x * Real.pi / 180

/-- Python's `math.atan2`. -/
noncomputable def atan2 (y x : ℝ) : ℝ :=
  if 0 < x then Real.arctan (y / x)
  else if x < 0 then
    (if 0 ≤ y then Real.arctan (y / x) + Real.pi
      else Real.arctan (y / x) - Real.pi)
  else if 0 < y then Real.pi / 2
  else if y < 0 then -(Real.pi / 2)
  else 0

/-- `AddressGenerator._haversine_distance` (Earth radius 6,371,000 m). -/
noncomputable def haversineDistance (lat1 lng1 lat2 lng2 : ℝ) : ℝ :=
  6371000 *
    (2 * atan2
      (Real.sqrt (Real.sin (radiansDeg (lat2 - lat1) / 2) ^ 2 +
        Real.cos (radiansDeg lat1) * Real.cos (radiansDeg lat2) *
          Real.sin (radiansDeg (lng2 - lng1) / 2) ^ 2))
      (Real.sqrt (1 - (Real.sin (radiansDeg (lat2 - lat1) / 2) ^ 2 +
        Real.cos (radiansDeg lat1) * Real.cos (radiansDeg lat2) *
          Real.sin (radiansDeg (lng2 - lng1) / 2) ^ 2))))

/-- Haversine distance between two candidates. -/
noncomputable def candidateDistance (a b : Candidate) : ℝ :=
  haversineDistance (a.lat : ℝ) (a.lng : ℝ) (b.lat : ℝ) (b.lng : ℝ)

/-- Descending-score order used by `sorted(candidates, key=score,
reverse=True)`; `scoreDesc a b` means `a` may stay in front of `b`. -/
def scoreDesc (a b : Candidate) : Prop := b.score ≤ a.score

instance : DecidableRel scoreDesc := fun a b =>
  inferInstanceAs (Decidable (b.score ≤ a.score))

section
open Classical

/-- The greedy keep loop of `_deduplicate_by_distance`: walk the sorted
candidates, keeping one iff it is not within `minD` of any already-kept
candidate (`kept.append` = append at the end). -/
noncomputable def greedyKeep (dist : Candidate → Candidate → ℝ) (minD : ℝ) :
    List Candidate → List Candidate → List Candidate
  | kept, [] => kept
  | kept, c :: rest =>
    if ∃ k ∈ kept, dist k c < minD then greedyKeep dist minD kept rest
    else greedyKeep dist minD (kept ++ [c]) rest

/-- `AddressGenerator._deduplicate_by_distance` over an arbitrary distance
function (the source calls it with `self._haversine_distance`). -/
noncomputable def deduplicateByDistance (dist : Candidate → Candidate → ℝ)
    (minD : ℝ) (candidates : List Candidate) : List Candidate :=
  if candidates = [] then []
  else greedyKeep dist minD [] (pySorted scoreDesc candidates)

/-- Steps 3–5 of `generate_candidates`: deduplicate at 80 m under the
haversine distance, sort by score descending, truncate to `limit` (the
1-based `rank` decoration added afterwards does not change the list). -/
noncomputable def generateCandidatesPost (candidates : List Candidate)
    (limit : ℕ) : List Candidate :=
  (pySorted scoreDesc (deduplicateByDistance candidateDistance 80 candidates)).take
    limit

end

/-- The hard-coded street list of `_generate_mock_address`. -/
def mockStreets : List String :=
  ["Mannerheimintie", "Aleksanterinkatu", "Esplanadi", "Fredrikinkatu",
    "Bulevardi", "Lönnrotinkatu", "Annankatu", "Unioninkatu",
    "Kaivokatu", "Mikonkatu", "Pohjoisesplanadi", "Eteläesplanadi"]

/-- `AddressGenerator._generate_mock_address`: a pure function of the
coordinate pair alone — street, house number and postal code are all derived
arithmetically from `(lat, lng)`; no randomness, no external state.
Exact-rational coordinates; Python's `int()` is `pyInt` and `%` on
nonnegative divisors matches `Int.emod`. -/
def generateMockAddress (lat lng : ℚ) : String :=
  let street_idx := (pyInt ((lat + lng) * 1000) % 12).toNat
  let street := mockStreets.getD street_idx ""
  let house_num := pyInt (|lat - 60.1| * 1000) % 99 + 1
  let postal := "00" ++ toString (100 + pyInt (lng * 1000) % 890)
  street ++ " " ++ toString house_num ++ ", " ++ postal ++ " Helsinki"

/-! ### Properties of the greedy deduplication -/

theorem greedyKeep_spec (dist : Candidate → Candidate → ℝ) (minD : ℝ) :
    ∀ (rest kept : List Candidate),
      kept.Pairwise (fun a b => ¬dist a b < minD) →
      rest.Pairwise scoreDesc →
      (∀ k ∈ kept, ∀ c ∈ rest, c.score ≤ k.score) →
      (greedyKeep dist minD kept rest).Pairwise (fun a b => ¬dist a b < minD) ∧
        kept ⊆ greedyKeep dist minD kept rest ∧
        ∀ c ∈ rest, c ∈ greedyKeep dist minD kept rest ∨
          ∃ k ∈ greedyKeep dist minD kept rest, dist k c < minD ∧ c.score ≤ k.score := by
  intro rest
  induction rest with
  | nil =>
    intro kept hkp _ _
    refine ⟨hkp, fun x hx => hx, ?_⟩
    intro c hc
    exact absurd hc (List.not_mem_nil c)
  | cons c rest ih =>
    intro kept hkp hsort hscore
    rw [List.pairwise_cons] at hsort
    obtain ⟨hc_ge, hsort'⟩ := hsort
    by_cases hclose : ∃ k ∈ kept, dist k c < minD
    · rw [greedyKeep, if_pos hclose]
      obtain ⟨hP, hsub, hall⟩ := ih kept hkp hsort'
        (fun k hk x hx => hscore k hk x (List.mem_cons_of_mem c hx))
      refine ⟨hP, hsub, ?_⟩
      intro x hx
      rcases List.mem_cons.mp hx with rfl | hx
      · obtain ⟨k, hk, hdk⟩ := hclose
        exact Or.inr ⟨k, hsub hk, hdk, hscore k hk x (List.mem_cons_self x rest)⟩
      · exact hall x hx
    · rw [greedyKeep, if_neg hclose]
      push_neg at hclose
      have hkp' : (kept ++ [c]).Pairwise (fun a b => ¬dist a b < minD) := by
        rw [List.pairwise_append]
        refine ⟨hkp, List.pairwise_singleton _ c, ?_⟩
        intro k hk x hx
        rw [List.mem_singleton] at hx
        subst hx
        exact not_lt.mpr (hclose k hk)
      have hscore' : ∀ k ∈ kept ++ [c], ∀ x ∈ rest, x.score ≤ k.score := by
        intro k hk x hx
        rcases List.mem_append.mp hk with hk | hk
        · exact hscore k hk x (List.mem_cons_of_mem c hx)
        · rw [List.mem_singleton] at hk
          subst hk
          exact hc_ge x hx
      obtain ⟨hP, hsub, hall⟩ := ih (kept ++ [c]) hkp' hsort' hscore'
      refine ⟨hP, ?_, ?_⟩
      · intro x hx
        exact hsub (List.mem_append_left _ hx)
      · intro x hx
        rcases List.mem_cons.mp hx with rfl | hx
        · exact Or.inl (hsub (List.mem_append_right _ (List.mem_singleton_self x)))
        · exact hall x hx

theorem scoreDesc_total : ∀ a b : Candidate, ¬scoreDesc a b → scoreDesc b a := by
  intro a b h
  unfold scoreDesc at h ⊢
  linarith [lt_of_not_le h]

theorem scoreDesc_trans : ∀ a b c : Candidate,
    scoreDesc a b → scoreDesc b c → scoreDesc a c := by
  intro a b c h1 h2
  unfold scoreDesc at h1 h2 ⊢
  linarith

theorem deduplicateByDistance_spec (dist : Candidate → Candidate → ℝ) (minD : ℝ)
    (candidates : List Candidate) :
    (deduplicateByDistance dist minD candidates).Pairwise
        (fun a b => ¬dist a b < minD) ∧
      ∀ c ∈ candidates, c ∈ deduplicateByDistance dist minD candidates ∨
        ∃ k ∈ deduplicateByDistance dist minD candidates,
          dist k c < minD ∧ c.score ≤ k.score := by
  unfold deduplicateByDistance
  split_ifs with hnil
  · subst hnil
    refine ⟨List.Pairwise.nil, ?_⟩
    intro c hc
    exact absurd hc (List.not_mem_nil c)
  · have hsort := pySorted_pairwise scoreDesc scoreDesc_total scoreDesc_trans candidates
    obtain ⟨hP, _, hall⟩ := greedyKeep_spec dist minD (pySorted scoreDesc candidates) []
      List.Pairwise.nil hsort (by intro k hk; exact absurd hk (List.not_mem_nil k))
    refine ⟨hP, ?_⟩
    intro c hc
    exact hall c ((pySorted_perm scoreDesc candidates).mem_iff.mpr hc)

/-! ### Haversine symmetry -/

theorem haversineDistance_symm (lat1 lng1 lat2 lng2 : ℝ) :
    haversineDistance lat1 lng1 lat2 lng2 = haversineDistance lat2 lng2 lat1 lng1 := by
  unfold haversineDistance radiansDeg
  have e1 : Real.sin ((lat1 - lat2) * Real.pi / 180 / 2) ^ 2
      = Real.sin ((lat2 - lat1) * Real.pi / 180 / 2) ^ 2 := by
    rw [show (lat1 - lat2) * Real.pi / 180 / 2
        = -((lat2 - lat1) * Real.pi / 180 / 2) by ring, Real.sin_neg]
    ring
  have e2 : Real.sin ((lng1 - lng2) * Real.pi / 180 / 2) ^ 2
      = Real.sin ((lng2 - lng1) * Real.pi / 180 / 2) ^ 2 := by
    rw [show (lng1 - lng2) * Real.pi / 180 / 2
        = -((lng2 - lng1) * Real.pi / 180 / 2) by ring, Real.sin_neg]
    ring
  have ha : Real.sin ((lat1 - lat2) * Real.pi / 180 / 2) ^ 2 +
        Real.cos (lat2 * Real.pi / 180) * Real.cos (lat1 * Real.pi / 180) *
          Real.sin ((lng1 - lng2) * Real.pi / 180 / 2) ^ 2
      = Real.sin ((lat2 - lat1) * Real.pi / 180 / 2) ^ 2 +
        Real.cos (lat1 * Real.pi / 180) * Real.cos (lat2 * Real.pi / 180) *
          Real.sin ((lng2 - lng1) * Real.pi / 180 / 2) ^ 2 := by
    rw [e1, e2]
    ring
  rw [ha]

theorem candidateDistance_symm (a b : Candidate) :
    candidateDistance a b = candidateDistance b a :=
  haversineDistance_symm _ _ _ _

theorem candidateDistance_self_eq_zero (a b : Candidate)
    (hlat : a.lat = b.lat) (hlng : a.lng = b.lng) :
    candidateDistance a b = 0 := by
  unfold candidateDistance haversineDistance radiansDeg
  rw [hlat, hlng, sub_self, sub_self]
  simp [Real.sqrt_eq_zero', atan2, Real.arctan_zero]

end AddressGenerator

/-! ### Claim C5 -/

theorem mem_dedup_of_mem_post {candidates : List Candidate} {limit : ℕ}
    {a : Candidate} (ha : a ∈ AddressGenerator.generateCandidatesPost candidates limit) :
    a ∈ AddressGenerator.deduplicateByDistance AddressGenerator.candidateDistance 80
      candidates := by
  unfold AddressGenerator.generateCandidatesPost at ha
  exact (pySorted_perm AddressGenerator.scoreDesc _).mem_iff.mp
    (List.take_subset _ _ ha)

/-- C5: every pair of distinct candidates returned by the
`generate_candidates` post-processing (dedup at 80 m, sort, truncate) is at
least 80 m apart under the haversine great-circle distance (Earth radius
6,371,000 m); and the deduplication is greedy in descending score order, so
every dropped candidate has a kept candidate within 80 m whose score is at
least as high. -/
theorem c5_dedup_min_separation (candidates : List Candidate) (limit : ℕ) :
    (∀ a ∈ AddressGenerator.generateCandidatesPost candidates limit,
      ∀ b ∈ AddressGenerator.generateCandidatesPost candidates limit, a ≠ b →
        80 ≤ AddressGenerator.candidateDistance a b) ∧
      ∀ c ∈ candidates,
        c ∉ AddressGenerator.deduplicateByDistance AddressGenerator.candidateDistance
          80 candidates →
        ∃ k ∈ AddressGenerator.deduplicateByDistance AddressGenerator.candidateDistance
          80 candidates,
          AddressGenerator.candidateDistance k c < 80 ∧ c.score ≤ k.score := by
  obtain ⟨hP, hall⟩ := AddressGenerator.deduplicateByDistance_spec
    AddressGenerator.candidateDistance 80 candidates
  constructor
  · have hsymm : Symmetric
        (fun a b : Candidate => ¬AddressGenerator.candidateDistance a b < 80) := by
      intro a b h
      rwa [AddressGenerator.candidateDistance_symm]
    intro a ha b hb hne
    exact not_lt.mp (List.Pairwise.forall hsymm hP
      (mem_dedup_of_mem_post ha) (mem_dedup_of_mem_post hb) hne)
  · intro c hc hnotin
    rcases hall c hc with h | h
    · exact absurd h hnotin
    · exact h

/-- Candidate kept by the witness deduplication (higher score). -/
def candidateKept : Candidate :=
  { address := "Mannerheimintie 1, 00100 Helsinki", lat := 60.17, lng := 24.94,
    score := 90 }

/-- Candidate dropped by the witness deduplication (same coordinates, lower
score). -/
def candidateDropped : Candidate :=
  { address := "Mannerheimintie 2, 00100 Helsinki", lat := 60.17, lng := 24.94,
    score := 80 }

theorem dedup_witness_eval :
    AddressGenerator.deduplicateByDistance AddressGenerator.candidateDistance 80
      [candidateKept, candidateDropped] = [candidateKept] := by
  have hdist : AddressGenerator.candidateDistance candidateKept candidateDropped = 0 :=
    AddressGenerator.candidateDistance_self_eq_zero _ _ rfl rfl
  have hsorted : pySorted AddressGenerator.scoreDesc [candidateKept, candidateDropped]
      = [candidateKept, candidateDropped] := by
    unfold pySorted
    simp only [List.foldl]
    norm_num [insertSorted, AddressGenerator.scoreDesc, candidateKept, candidateDropped]
  unfold AddressGenerator.deduplicateByDistance
  rw [if_neg (by simp), hsorted]
  unfold AddressGenerator.greedyKeep
  rw [if_neg (by simp)]
  simp only [List.nil_append]
  unfold AddressGenerator.greedyKeep
  rw [if_pos ?_]
  · unfold AddressGenerator.greedyKeep
    rfl
  · refine ⟨candidateKept, List.mem_singleton_self _, ?_⟩
    rw [hdist]
    norm_num

/-- Witness for C5: with two same-coordinate candidates the lower-scoring one
is dropped, and the claim's greedy guarantee produces the higher-scoring kept
candidate within 80 m. -/
theorem c5_dedup_min_separation_witness :
    candidateDropped ∈ [candidateKept, candidateDropped] ∧
      candidateDropped ∉ AddressGenerator.deduplicateByDistance
        AddressGenerator.candidateDistance 80 [candidateKept, candidateDropped] ∧
      ∃ k ∈ AddressGenerator.deduplicateByDistance AddressGenerator.candidateDistance
        80 [candidateKept, candidateDropped],
        AddressGenerator.candidateDistance k candidateDropped < 80 ∧
          candidateDropped.score ≤ k.score := by
  have hmem : candidateDropped ∈ [candidateKept, candidateDropped] := by simp
  have hne : candidateDropped ∉ AddressGenerator.deduplicateByDistance
      AddressGenerator.candidateDistance 80 [candidateKept, candidateDropped] := by
    rw [dedup_witness_eval]
    simp [candidateKept, candidateDropped]
  exact ⟨hmem, hne,
    (c5_dedup_min_separation [candidateKept, candidateDropped] 10).2
      candidateDropped hmem hne⟩

/-! ### Claim C6 -/

/-- C6: the synthetic-address fallback is deterministic — it is a pure
function of the coordinate pair, so two calls with the same coordinates
return the same address string; there is no dependence on randomness or
external state. -/
theorem c6_mock_address_deterministic (lat1 lng1 lat2 lng2 : ℚ)
    (hlat : lat1 = lat2) (hlng : lng1 = lng2) :
    AddressGenerator.generateMockAddress lat1 lng1
      = AddressGenerator.generateMockAddress lat2 lng2 := by
  rw [hlat, hlng]

/-- Witness for C6: two calls at the concrete Helsinki-centre coordinate pair
agree. -/
theorem c6_mock_address_deterministic_witness :
    (60.17 : ℚ) = 60.17 ∧ (24.94 : ℚ) = 24.94 ∧
      AddressGenerator.generateMockAddress 60.17 24.94
        = AddressGenerator.generateMockAddress 60.17 24.94 :=
  ⟨rfl, rfl, c6_mock_address_deterministic 60.17 24.94 60.17 24.94 rfl rfl⟩

/-! ## ConceptLearner (backend/services/concept_learner.py)

Database rows are modelled as in-memory lists; SQLAlchemy queries
(`filter(...).first()` / `.all()`) become `find?` / `filter`, and in-place
mutation of a session object becomes a keyed map over the list.  Timestamps
(`datetime.utcnow()`, `opened_at`) are opaque rationals supplied by the
caller. -/

/-- Python `statistics.mean`. -/
def pyMean (l : List ℚ) : ℚ := l.sum / l.length

namespace ConceptLearner

/-- A `concepts` table row (fields touched by the learner; the DB column
`base_revenue_eur` is an `Integer`). -/
structure ConceptRec where
  id : String
  base_revenue_eur : ℤ
  revenue_variance : ℚ
  weights : List (String × ℚ)
  outcomes_count : ℕ
  avg_prediction_error : Option ℚ
  last_trained_at : Option ℚ
deriving DecidableEq

/-- A `concept_training_outcomes` table row. -/
structure TrainingOutcome where
  id : ℕ
  concept_id : String
  prediction_id : ℕ
  predicted_revenue_eur : ℚ
  predicted_score : ℚ
  features_used : Option SiteFeatures
  actual_revenue_eur : ℚ
  variance_pct : ℚ
  opened_at : ℚ
  used_in_training : Bool
  training_weight : ℚ
deriving DecidableEq

/-- A `predictions` table row (fields read by `record_outcome`);
`features_used = none` also covers a falsy empty feature snapshot. -/
structure PredictionRec where
  id : ℕ
  concept_id : Option String
  revenue_mid : ℚ
  score : ℚ
  features : Option SiteFeatures
deriving DecidableEq

/-- The database state seen by the learner, plus the autoincrement counter
for training-outcome ids. -/
structure LearnerState where
  predictions : List PredictionRec
  concepts : List ConceptRec
  outcomes : List TrainingOutcome
  nextOutcomeId : ℕ
deriving DecidableEq

/-- `db.query(Prediction).filter(Prediction.id == prediction_id).first()`. -/
def lookupPrediction (s : LearnerState) (pid : ℕ) : Option PredictionRec :=
  s.predictions.find? (fun p => p.id == pid)

/-- `db.query(Concept).filter(Concept.id == concept_id).first()`. -/
def lookupConcept (s : LearnerState) (cid : String) : Option ConceptRec :=
  s.concepts.find? (fun c => c.id == cid)

/-- `db.query(ConceptTrainingOutcome).filter(concept_id == ...).all()`. -/
def outcomesFor (s : LearnerState) (cid : String) : List TrainingOutcome :=
  s.outcomes.filter (fun o => o.concept_id == cid)

/-- In-place mutation of the session's concept object. -/
def updateConcept (s : LearnerState) (cid : String) (f : ConceptRec → ConceptRec) :
    LearnerState :=
  { s with concepts := s.concepts.map (fun c => if c.id == cid then f c else c) }

/-- The five factor names of `_optimize_weights`, in source order. -/
def featureNames : List String :=
  ["population", "income", "access", "competition", "walkability"]

/-- The raw feature value extracted per factor in `_optimize_weights`
(`dict.get` with the source's defaults; `access` is the inverse
metro-distance). -/
def featureValue (name : String) (f : SiteFeatures) : ℚ :=
  if name = "population" then f.population_density.getD 0
  else if name = "income" then f.median_income.getD 0
  else if name = "access" then 1 / (f.nearest_metro_distance_m.getD 1000 + 1)
  else if name = "competition" then f.competitors_per_1k_residents.getD 0
  else f.walkability_poi_count.getD 0

/-- `ConceptLearner._calculate_correlation` (Pearson).  The series fed to it
are built with `.get(..., default)` and therefore contain no `None` entries,
so the source's None-pair filter is the identity here; `** 0.5` on the
nonnegative product of variances is `Real.sqrt`. -/
noncomputable def calculateCorrelation (x y : List ℚ) : ℝ :=
  if x.length ≠ y.length ∨ x.length < 2 then 0
  else
    if Real.sqrt (((x.map (fun xi => (xi - pyMean x) ^ 2)).sum *
        (y.map (fun yi => (yi - pyMean y) ^ 2)).sum : ℚ)) = 0 then 0
    else (((x.zip y).map (fun p => (p.1 - pyMean x) * (p.2 - pyMean y))).sum : ℚ) /
      Real.sqrt (((x.map (fun xi => (xi - pyMean x) ^ 2)).sum *
        (y.map (fun yi => (yi - pyMean y) ^ 2)).sum : ℚ))

/-- Python `round(x, 2)` applied to a real intermediate, yielding the stored
float (an exact rational). -/
noncomputable def pyRound2OfReal (x : ℝ) : ℚ := (roundHalfEven (x * 100) : ℚ) / 100

/-- First key of maximal value: Python `max(dict, key=dict.get)` (iteration
in insertion order, strict improvement only). -/
def maxKey (l : List (String × ℚ)) : String :=
  match l with
  | [] => ""
  | p :: rest => (rest.foldl (fun best q => if best.2 < q.2 then q else best) p).1

/-- `ConceptLearner._optimize_weights`: absolute Pearson correlation of each
factor series with actual revenue, normalised to sum 1, rounded to 2
decimals, with the residual added onto the largest weight.  Outcomes with a
falsy feature snapshot are skipped. -/
noncomputable def optimizeWeights (outcomes : List TrainingOutcome)
    (current_weights : List (String × ℚ)) : Option (List (String × ℚ)) :=
  if outcomes.length < 20 then none
  else
    let actual_revenues := outcomes.filterMap
      (fun o => o.features_used.map (fun _ => o.actual_revenue_eur))
    let series := fun name => outcomes.filterMap
      (fun o => o.features_used.map (featureValue name))
    let correlations : List (String × ℝ) := featureNames.map
      (fun name => (name, |calculateCorrelation (series name) actual_revenues|))
    let total_corr : ℝ := (correlations.map (·.2)).sum
    if total_corr = 0 then none
    else
      let new_weights : List (String × ℚ) := correlations.map
        (fun p => (p.1, pyRound2OfReal (p.2 / total_corr)))
      let weight_sum : ℚ := (new_weights.map (·.2)).sum
      if weight_sum = 1 then some new_weights
      else some (new_weights.map (fun p =>
        if p.1 = maxKey new_weights then (p.1, pyRound2 (p.2 + (1 - weight_sum)))
        else p))

/-- `ConceptLearner._retrain_concept` (`now` models `datetime.utcnow()`). -/
noncomputable def retrainConcept (s : LearnerState) (concept_id : String)
    (now : ℚ) : LearnerState :=
  match lookupConcept s concept_id with
  | none => s
  | some concept =>
    if (outcomesFor s concept_id).length < 5 then s
    else
      let outcomes := outcomesFor s concept_id
      let new_base_revenue := pyMedian (outcomes.map (·.actual_revenue_eur))
      let mape := pyMean (outcomes.map (fun o => |o.variance_pct|))
      let new_variance : ℚ :=
        if mape < 10 then 0.10
        else if mape < 15 then 0.12
        else if mape < 20 then 0.15
        else max (0.20 - (outcomes.length : ℚ) * 0.005) 0.15
      let weights' : List (String × ℚ) :=
        if 20 ≤ outcomes.length then
          match optimizeWeights outcomes concept.weights with
          | some w => w
          | none => concept.weights
        else concept.weights
      let s1 := updateConcept s concept_id (fun c =>
        { c with base_revenue_eur := pyInt new_base_revenue,
                 revenue_variance := new_variance,
                 avg_prediction_error := some mape,
                 last_trained_at := some now,
                 weights := weights' })
      { s1 with outcomes := s1.outcomes.map (fun o =>
          if o.concept_id == concept_id then { o with used_in_training := true }
          else o) }

/-- The dictionary returned by `record_outcome`. -/
structure RecordResult where
  training_outcome_id : Option ℕ
  variance_pct : ℚ
  triggered_retraining : Bool
  new_accuracy : Option ℚ
  outcomes_count : Option ℕ
  message : Option String
deriving DecidableEq

/-- `ConceptLearner.record_outcome`; `raise ValueError` becomes
`Except.error`, and the Python `AttributeError` that a dangling
`prediction.concept_id` would cause is also an error. -/
noncomputable def recordOutcome (s : LearnerState) (prediction_id : ℕ)
    (actual_revenue : ℚ) (opened_at now : ℚ) :
    Except String (LearnerState × RecordResult) :=
  match lookupPrediction s prediction_id with
  | none => .error ("Prediction " ++ toString prediction_id ++ " not found")
  | some prediction =>
    match prediction.concept_id with
    | none =>
      .ok (s, { training_outcome_id := none, variance_pct := 0,
                triggered_retraining := false, new_accuracy := none,
                outcomes_count := none,
                message := some "No concept linked to prediction - cannot learn" })
    | some cid =>
      let variance_pct :=
        (actual_revenue - prediction.revenue_mid) / prediction.revenue_mid * 100
      let outcome : TrainingOutcome :=
        { id := s.nextOutcomeId, concept_id := cid, prediction_id := prediction_id,
          predicted_revenue_eur := prediction.revenue_mid,
          predicted_score := prediction.score,
          features_used := prediction.features,
          actual_revenue_eur := actual_revenue, variance_pct := variance_pct,
          opened_at := opened_at, used_in_training := false, training_weight := 1 }
      let s1 : LearnerState :=
        { s with outcomes := s.outcomes ++ [outcome],
                 nextOutcomeId := s.nextOutcomeId + 1 }
      match lookupConcept s1 cid with
      | none => .error "AttributeError: concept not found"
      | some concept =>
        let s2 := updateConcept s1 cid
          (fun c => { c with outcomes_count := c.outcomes_count + 1 })
        if 5 ≤ concept.outcomes_count + 1 then
          .ok (retrainConcept s2 cid now,
            { training_outcome_id := some outcome.id,
              variance_pct := pyRound2 variance_pct,
              triggered_retraining := true,
              new_accuracy := (lookupConcept (retrainConcept s2 cid now) cid).bind
                (·.avg_prediction_error),
              outcomes_count := some (concept.outcomes_count + 1), message := none })
        else
          .ok (s2, { training_outcome_id := some outcome.id,
                     variance_pct := pyRound2 variance_pct,
                     triggered_retraining := false, new_accuracy := none,
                     outcomes_count := some (concept.outcomes_count + 1),
                     message := none })

theorem find?_map_update (l : List ConceptRec) (cid : String)
    (f : ConceptRec → ConceptRec) (hf : ∀ c, (f c).id = c.id) :
    (l.map (fun c => if c.id == cid then f c else c)).find? (fun c => c.id == cid)
      = (l.find? (fun c => c.id == cid)).map f := by
  induction l with
  | nil => rfl
  | cons c l ih =>
    by_cases hc : (c.id == cid) = true
    · rw [List.map_cons, if_pos hc,
        @List.find?_cons_of_pos _ (fun c => c.id == cid) (f c) _
          (by show ((f c).id == cid) = true; rw [hf]; exact hc),
        @List.find?_cons_of_pos _ (fun c => c.id == cid) c l hc]
      rfl
    · rw [List.map_cons, if_neg hc,
        @List.find?_cons_of_neg _ (fun c => c.id == cid) c _ hc,
        @List.find?_cons_of_neg _ (fun c => c.id == cid) c l hc, ih]

theorem lookupConcept_updateConcept (s : LearnerState) (cid : String)
    (f : ConceptRec → ConceptRec) (hf : ∀ c, (f c).id = c.id) :
    lookupConcept (updateConcept s cid f) cid = (lookupConcept s cid).map f :=
  find?_map_update s.concepts cid f hf

end ConceptLearner

/-! ### Claim C7 -/

/-- C7 (amended): whenever retraining runs with at least the minimum 5
outcomes, it sets the concept's base revenue to `int(median)` — the median of
the actual revenues across all of the concept's training outcomes, truncated
to an integer (the `base_revenue_eur` column is an `Integer`); this equals
the median exactly whenever the median is a whole number, as in the claim's
five-outcome example where the result is exactly 110000. -/
theorem c7_retrain_base_revenue (s : ConceptLearner.LearnerState) (cid : String)
    (now : ℚ) (c : ConceptLearner.ConceptRec)
    (hc : ConceptLearner.lookupConcept s cid = some c)
    (h5 : 5 ≤ (ConceptLearner.outcomesFor s cid).length) :
    (ConceptLearner.lookupConcept (ConceptLearner.retrainConcept s cid now) cid).map
        (fun c => c.base_revenue_eur)
      = some (pyInt (pyMedian ((ConceptLearner.outcomesFor s cid).map
          (fun o => o.actual_revenue_eur)))) := by
  unfold ConceptLearner.retrainConcept
  rw [hc]
  dsimp only
  rw [if_neg (by omega)]
  unfold ConceptLearner.lookupConcept ConceptLearner.updateConcept
  dsimp only
  rw [ConceptLearner.find?_map_update]
  · have hc' : s.concepts.find? (fun c => c.id == cid) = some c := hc
    rw [hc']
    rfl
  · intro x
    rfl

/-- Concept row used by the learner examples. -/
def learnerConcept : ConceptLearner.ConceptRec :=
  { id := "c1", base_revenue_eur := 150000, revenue_variance := 0.2,
    weights := [("population", 0.3), ("income", 0.25), ("access", 0.2),
      ("competition", 0.15), ("walkability", 0.1)],
    outcomes_count := 6, avg_prediction_error := none, last_trained_at := none }

/-- A recorded training outcome with the given id and actual revenue. -/
def mkOutcome (i : ℕ) (actual : ℚ) : ConceptLearner.TrainingOutcome :=
  { id := i, concept_id := "c1", prediction_id := i,
    predicted_revenue_eur := 100000, predicted_score := 80, features_used := none,
    actual_revenue_eur := actual, variance_pct := 0, opened_at := 0,
    used_in_training := false, training_weight := 1 }

/-- Six outcomes whose actual revenues have the fractional median
`100000.5`. -/
def evenState : ConceptLearner.LearnerState :=
  { predictions := [], concepts := [learnerConcept],
    outcomes := [mkOutcome 1 100000, mkOutcome 2 100000, mkOutcome 3 100000,
      mkOutcome 4 100001, mkOutcome 5 100001, mkOutcome 6 100001],
    nextOutcomeId := 7 }

/-- The claim's five-outcome example state. -/
def fiveState : ConceptLearner.LearnerState :=
  { predictions := [], concepts := [learnerConcept],
    outcomes := [mkOutcome 1 100000, mkOutcome 2 120000, mkOutcome 3 150000,
      mkOutcome 4 90000, mkOutcome 5 110000],
    nextOutcomeId := 6 }

/-- C7, as stated, is false: with six outcomes the median of the actual
revenues is `100000.5`, but retraining stores `int(median) = 100000`, not the
median. -/
theorem c7_retrain_base_revenue_counterexample :
    ConceptLearner.lookupConcept evenState "c1" = some learnerConcept ∧
      (ConceptLearner.outcomesFor evenState "c1").length = 6 ∧
      pyMedian ((ConceptLearner.outcomesFor evenState "c1").map
        (fun o => o.actual_revenue_eur)) = 200001 / 2 ∧
      (ConceptLearner.lookupConcept
          (ConceptLearner.retrainConcept evenState "c1" 0) "c1").map
        (fun c => (c.base_revenue_eur : ℚ)) = some 100000 ∧
      ((100000 : ℚ) ≠ 200001 / 2) := by
  have hlook : ConceptLearner.lookupConcept evenState "c1" = some learnerConcept := by
    simp [ConceptLearner.lookupConcept, evenState, learnerConcept]
  have houtcomes : ConceptLearner.outcomesFor evenState "c1"
      = [mkOutcome 1 100000, mkOutcome 2 100000, mkOutcome 3 100000,
        mkOutcome 4 100001, mkOutcome 5 100001, mkOutcome 6 100001] := by
    simp [ConceptLearner.outcomesFor, evenState, mkOutcome]
  have hmed : pyMedian ((ConceptLearner.outcomesFor evenState "c1").map
      (fun o => o.actual_revenue_eur)) = 200001 / 2 := by
    rw [houtcomes]
    norm_num [pyMedian, pySorted, insertSorted, List.foldl, mkOutcome, List.getD]
  refine ⟨hlook, by rw [houtcomes]; rfl, hmed, ?_, by norm_num⟩
  unfold ConceptLearner.retrainConcept
  rw [hlook]
  dsimp only
  rw [if_neg (by rw [houtcomes]; norm_num)]
  unfold ConceptLearner.lookupConcept ConceptLearner.updateConcept
  dsimp only
  rw [ConceptLearner.find?_map_update]
  · have hlook' : evenState.concepts.find? (fun c => c.id == "c1")
        = some learnerConcept := hlook
    rw [hlook']
    show some ((pyInt (pyMedian ((ConceptLearner.outcomesFor evenState "c1").map
      (fun x => x.actual_revenue_eur))) : ℚ)) = some 100000
    rw [hmed]
    norm_num [pyInt]
  · intro x
    rfl

/-- Witness for C7: on the claim's five-outcome example
`[100000, 120000, 150000, 90000, 110000]` the amended theorem yields exactly
110000. -/
theorem c7_retrain_base_revenue_witness :
    (ConceptLearner.lookupConcept fiveState "c1" = some learnerConcept ∧
        5 ≤ (ConceptLearner.outcomesFor fiveState "c1").length) ∧
      (ConceptLearner.lookupConcept
          (ConceptLearner.retrainConcept fiveState "c1" 0) "c1").map
        (fun c => c.base_revenue_eur) = some 110000 := by
  have hlook : ConceptLearner.lookupConcept fiveState "c1" = some learnerConcept := by
    simp [ConceptLearner.lookupConcept, fiveState, learnerConcept]
  have houtcomes : ConceptLearner.outcomesFor fiveState "c1"
      = [mkOutcome 1 100000, mkOutcome 2 120000, mkOutcome 3 150000,
        mkOutcome 4 90000, mkOutcome 5 110000] := by
    simp [ConceptLearner.outcomesFor, fiveState, mkOutcome]
  have hlen : 5 ≤ (ConceptLearner.outcomesFor fiveState "c1").length := by
    rw [houtcomes]; norm_num
  have h := c7_retrain_base_revenue fiveState "c1" 0 learnerConcept hlook hlen
  refine ⟨⟨hlook, hlen⟩, ?_⟩
  rw [h, houtcomes]
  norm_num [pyMedian, pySorted, insertSorted, List.foldl, mkOutcome, List.getD, pyInt]

/-! ### Claim C8 -/

/-- C8 (amended): `record_outcome` raises (returns an error) whenever the
given prediction id does not exist; when the prediction exists but has no
associated concept, the call succeeds and reports
`triggered_retraining = false`, but — contrary to the original claim — the
outcome is NOT stored for record-keeping: `training_outcome_id` is `None` and
the state is returned unchanged. -/
theorem c8_record_outcome (s : ConceptLearner.LearnerState) (pid : ℕ)
    (actual opened now : ℚ) :
    (ConceptLearner.lookupPrediction s pid = none →
      ∃ e, ConceptLearner.recordOutcome s pid actual opened now = .error e) ∧
      (∀ p, ConceptLearner.lookupPrediction s pid = some p → p.concept_id = none →
        ConceptLearner.recordOutcome s pid actual opened now
          = .ok (s, { training_outcome_id := none, variance_pct := 0,
                      triggered_retraining := false, new_accuracy := none,
                      outcomes_count := none,
                      message := some "No concept linked to prediction - cannot learn" })) := by
  constructor
  · intro hnone
    refine ⟨"Prediction " ++ toString pid ++ " not found", ?_⟩
    unfold ConceptLearner.recordOutcome
    rw [hnone]
  · intro p hp hcid
    unfold ConceptLearner.recordOutcome
    rw [hp]
    dsimp only
    rw [hcid]

/-- A prediction with no associated concept. -/
def predNoConcept : ConceptLearner.PredictionRec :=
  { id := 1, concept_id := none, revenue_mid := 100000, score := 80,
    features := none }

/-- State holding only the concept-less prediction and no outcomes. -/
def noConceptState : ConceptLearner.LearnerState :=
  { predictions := [predNoConcept], concepts := [], outcomes := [],
    nextOutcomeId := 1 }

/-- C8, as stated, is false in its record-keeping part: for a prediction with
no associated concept the call succeeds with `triggered_retraining = false`,
but nothing is recorded — the returned state is the unchanged input state,
whose outcomes table is still empty, and `training_outcome_id` is `None`. -/
theorem c8_record_outcome_counterexample :
    ConceptLearner.lookupPrediction noConceptState 1 = some predNoConcept ∧
      predNoConcept.concept_id = none ∧
      ConceptLearner.recordOutcome noConceptState 1 100000 0 0
        = .ok (noConceptState,
            { training_outcome_id := none, variance_pct := 0,
              triggered_retraining := false, new_accuracy := none,
              outcomes_count := none,
              message := some "No concept linked to prediction - cannot learn" }) ∧
      noConceptState.outcomes = [] := by
  refine ⟨rfl, rfl, ?_, rfl⟩
  unfold ConceptLearner.recordOutcome
  rfl

/-- Witness for C8: both branches of the amended theorem at concrete
states — a missing prediction id errors, a concept-less prediction succeeds
without recording. -/
theorem c8_record_outcome_witness :
    (ConceptLearner.lookupPrediction noConceptState 2 = none ∧
        ∃ e, ConceptLearner.recordOutcome noConceptState 2 100000 0 0 = .error e) ∧
      (ConceptLearner.lookupPrediction noConceptState 1 = some predNoConcept ∧
        predNoConcept.concept_id = none ∧
        ConceptLearner.recordOutcome noConceptState 1 100000 0 0
          = .ok (noConceptState,
              { training_outcome_id := none, variance_pct := 0,
                triggered_retraining := false, new_accuracy := none,
                outcomes_count := none,
                message := some "No concept linked to prediction - cannot learn" })) := by
  have hnone : ConceptLearner.lookupPrediction noConceptState 2 = none := rfl
  have hsome : ConceptLearner.lookupPrediction noConceptState 1 = some predNoConcept := rfl
  refine ⟨⟨hnone, (c8_record_outcome noConceptState 2 100000 0 0).1 hnone⟩,
    hsome, rfl, (c8_record_outcome noConceptState 1 100000 0 0).2 predNoConcept hsome rfl⟩

/-! ## JobManager (backend/services/job_manager.py)

The in-memory registries `self.jobs` and `self.job_queues` are Python dicts;
they are modelled extensionally as partial maps keyed by job id (`get_job`
never depends on dict iteration order, and `cleanup_expired_jobs` filters
pointwise).  Timestamps (`datetime.utcnow()`) are opaque rationals carried by
the operations; the SSE event-queue contents are outside claim C9 and only
queue existence is tracked. -/

namespace JobManager

/-- `JobStatus` constants. -/
inductive JStatus where
  | pending
  | running
  | complete
  | failed
  | degraded
deriving DecidableEq

/-- One entry of `self.jobs` (the job dictionary built by `create_job`;
`result` is an opaque payload). -/
structure Job where
  job_id : String
  status : JStatus
  city : String
  concept : String
  limit : ℕ
  include_crime : Bool
  created_at : ℚ
  expires_at : ℚ
  stages : String → Option String
  degraded : List String
  result : Option String
  error : Option String
  completed_at : Option ℚ

/-- The manager's state (`__init__`). -/
structure JMState where
  jobs : String → Option Job
  job_queues : String → Bool
  ttl_seconds : ℚ

/-- `JobManager(ttl_seconds)` with empty registries. -/
def initialState (ttl : ℚ) : JMState :=
  { jobs := fun _ => none, job_queues := fun _ => false, ttl_seconds := ttl }

/-- The operations a run of the system can apply to the manager, each
carrying the wall-clock reading it observes. `setRunning` is the
`job['status'] = 'running'` write of `run_recommendation_job`
(`backend/routes/recommend.py`). -/
inductive JMOp where
  | createJob (job_id city concept : String) (limit : ℕ) (include_crime : Bool)
      (now : ℚ)
  | setRunning (job_id : String)
  | emitStageUpdate (job_id stage status : String)
  | completeJob (job_id result : String) (degraded : List String) (now : ℚ)
  | failJob (job_id error : String) (now : ℚ)
  | cleanupExpiredJobs (now : ℚ)

/-- One step of the manager. -/
def applyOp (s : JMState) : JMOp → JMState
  | .createJob id city concept limit ic now =>
    { s with
      jobs := fun k => if k = id then
          some { job_id := id, status := .pending, city := city, concept := concept,
                 limit := limit, include_crime := ic, created_at := now,
                 expires_at := now + s.ttl_seconds, stages := fun _ => none,
                 degraded := [], result := none, error := none,
                 completed_at := none }
        else s.jobs k,
      job_queues := fun k => if k = id then true else s.job_queues k }
  | .setRunning id =>
    { s with jobs := fun k => if k = id then
        (s.jobs id).map (fun j => { j with status := .running })
      else s.jobs k }
  | .emitStageUpdate id stage status =>
    { s with jobs := fun k => if k = id then
        (s.jobs id).map (fun j =>
          { j with stages := fun st => if st = stage then some status else j.stages st })
      else s.jobs k }
  | .completeJob id result degraded now =>
    { s with jobs := fun k => if k = id then
        (s.jobs id).map (fun j =>
          { j with status := if degraded ≠ [] then .degraded else .complete,
                   result := some result, degraded := degraded,
                   completed_at := some now })
      else s.jobs k }
  | .failJob id error now =>
    { s with jobs := fun k => if k = id then
        (s.jobs id).map (fun j =>
          { j with status := .failed, error := some error, completed_at := some now })
      else s.jobs k }
  | .cleanupExpiredJobs now =>
    { s with
      jobs := fun k => match s.jobs k with
        | some j => if j.expires_at < now then none else some j
        | none => none,
      job_queues := fun k => match s.jobs k with
        | some j => if j.expires_at < now then false else s.job_queues k
        | none => s.job_queues k }

/-- Fold a run of operations. -/
def applyOps (s : JMState) (ops : List JMOp) : JMState := ops.foldl applyOp s

/-- `JobManager.get_job`. -/
def getJob (s : JMState) (id : String) : Option Job := s.jobs id

/-- Does the operation complete or fail the given job? -/
def opTerminates (id : String) : JMOp → Bool
  | .completeJob jid _ _ _ => jid == id
  | .failJob jid _ _ => jid == id
  | _ => false

/-- Does the operation (re-)create the given job id? -/
def opCreates (id : String) : JMOp → Bool
  | .createJob jid _ _ _ _ _ => jid == id
  | _ => false

theorem step_preserves_running (id : String) (E : ℚ) (s : JMState) (j : Job)
    (op : JMOp) (h : getJob s id = some j) (hrun : j.status = .running)
    (hexp : j.expires_at = E) (ht : opTerminates id op = false)
    (hc : opCreates id op = false)
    (hcl : ∀ n, op = .cleanupExpiredJobs n → n ≤ E) :
    ∃ j2, getJob (applyOp s op) id = some j2 ∧ j2.status = .running ∧
      j2.expires_at = E := by
  have h' : s.jobs id = some j := h
  cases op with
  | createJob jid city concept limit ic now =>
    have hne : ¬(id = jid) := by
      simp only [opCreates, beq_eq_false_iff_ne, ne_eq] at hc
      exact fun hh => hc hh.symm
    exact ⟨j, by simpa [getJob, applyOp, if_neg hne] using h, hrun, hexp⟩
  | setRunning jid =>
    by_cases hid : id = jid
    · subst hid
      refine ⟨{ j with status := .running }, ?_, rfl, hexp⟩
      simp [getJob, applyOp, h']
    · exact ⟨j, by simpa [getJob, applyOp, if_neg hid] using h, hrun, hexp⟩
  | emitStageUpdate jid stage status =>
    by_cases hid : id = jid
    · subst hid
      refine ⟨{ j with stages := fun st => if st = stage then some status
          else j.stages st }, ?_, hrun, hexp⟩
      simp [getJob, applyOp, h']
    · exact ⟨j, by simpa [getJob, applyOp, if_neg hid] using h, hrun, hexp⟩
  | completeJob jid result degraded now =>
    have hne : ¬(id = jid) := by
      simp only [opTerminates, beq_eq_false_iff_ne, ne_eq] at ht
      exact fun hh => ht hh.symm
    exact ⟨j, by simpa [getJob, applyOp, if_neg hne] using h, hrun, hexp⟩
  | failJob jid error now =>
    have hne : ¬(id = jid) := by
      simp only [opTerminates, beq_eq_false_iff_ne, ne_eq] at ht
      exact fun hh => ht hh.symm
    exact ⟨j, by simpa [getJob, applyOp, if_neg hne] using h, hrun, hexp⟩
  | cleanupExpiredJobs now =>
    have hn : now ≤ E := hcl now rfl
    refine ⟨j, ?_, hrun, hexp⟩
    simp only [getJob, applyOp]
    rw [h']
    dsimp only
    rw [if_neg (by rw [hexp]; exact not_lt.mpr hn)]

theorem run_preserves_running (id : String) (E : ℚ) :
    ∀ (ops : List JMOp) (s : JMState) (j : Job),
      getJob s id = some j → j.status = .running → j.expires_at = E →
      (∀ op ∈ ops, opTerminates id op = false) →
      (∀ op ∈ ops, opCreates id op = false) →
      (∀ n, JMOp.cleanupExpiredJobs n ∈ ops → n ≤ E) →
      ∃ j2, getJob (applyOps s ops) id = some j2 ∧ j2.status = .running ∧
        j2.expires_at = E := by
  intro ops
  induction ops with
  | nil =>
    intro s j h hrun hexp _ _ _
    exact ⟨j, h, hrun, hexp⟩
  | cons op ops ih =>
    intro s j h hrun hexp hterm hcreate hclean
    obtain ⟨j2, h2, hrun2, hexp2⟩ := step_preserves_running id E s j op h hrun hexp
      (hterm op (List.mem_cons_self op ops)) (hcreate op (List.mem_cons_self op ops))
      (fun n hn => hclean n (hn ▸ List.mem_cons_self op ops))
    exact ih (applyOp s op) j2 h2 hrun2 hexp2
      (fun o ho => hterm o (List.mem_cons_of_mem op ho))
      (fun o ho => hcreate o (List.mem_cons_of_mem op ho))
      (fun n hn => hclean n (List.mem_cons_of_mem op hn))

theorem step_preserves_gone (id : String) (s : JMState) (op : JMOp)
    (h : getJob s id = none) (hc : opCreates id op = false) :
    getJob (applyOp s op) id = none := by
  have h' : s.jobs id = none := h
  cases op with
  | createJob jid city concept limit ic now =>
    have hne : ¬(id = jid) := by
      simp only [opCreates, beq_eq_false_iff_ne, ne_eq] at hc
      exact fun hh => hc hh.symm
    simpa [getJob, applyOp, if_neg hne] using h
  | setRunning jid =>
    by_cases hid : id = jid
    · subst hid
      simp [getJob, applyOp, h']
    · simpa [getJob, applyOp, if_neg hid] using h
  | emitStageUpdate jid stage status =>
    by_cases hid : id = jid
    · subst hid
      simp [getJob, applyOp, h']
    · simpa [getJob, applyOp, if_neg hid] using h
  | completeJob jid result degraded now =>
    by_cases hid : id = jid
    · subst hid
      simp [getJob, applyOp, h']
    · simpa [getJob, applyOp, if_neg hid] using h
  | failJob jid error now =>
    by_cases hid : id = jid
    · subst hid
      simp [getJob, applyOp, h']
    · simpa [getJob, applyOp, if_neg hid] using h
  | cleanupExpiredJobs now =>
    simp only [getJob, applyOp]
    rw [h']

theorem run_preserves_gone (id : String) :
    ∀ (ops : List JMOp) (s : JMState), getJob s id = none →
      (∀ op ∈ ops, opCreates id op = false) →
      getJob (applyOps s ops) id = none := by
  intro ops
  induction ops with
  | nil => intro s h _; exact h
  | cons op ops ih =>
    intro s h hcreate
    exact ih (applyOp s op)
      (step_preserves_gone id s op h (hcreate op (List.mem_cons_self op ops)))
      (fun o ho => hcreate o (List.mem_cons_of_mem op ho))

theorem step_cleanup_removes (id : String) (s : JMState) (j : Job) (now : ℚ)
    (h : getJob s id = some j) (hlt : j.expires_at < now) :
    getJob (applyOp s (.cleanupExpiredJobs now)) id = none := by
  have h' : s.jobs id = some j := h
  simp only [getJob, applyOp]
  rw [h']
  dsimp only
  rw [if_pos hlt]

theorem step_preserves_expiry (id : String) (E : ℚ) (s : JMState) (op : JMOp)
    (h : getJob s id = none ∨ ∃ j, getJob s id = some j ∧ j.expires_at = E)
    (hc : opCreates id op = false) :
    getJob (applyOp s op) id = none ∨
      ∃ j, getJob (applyOp s op) id = some j ∧ j.expires_at = E := by
  rcases h with h | ⟨j, h, hexp⟩
  · exact Or.inl (step_preserves_gone id s op h hc)
  · have h' : s.jobs id = some j := h
    cases op with
    | createJob jid city concept limit ic now =>
      have hne : ¬(id = jid) := by
        simp only [opCreates, beq_eq_false_iff_ne, ne_eq] at hc
        exact fun hh => hc hh.symm
      exact Or.inr ⟨j, by simpa [getJob, applyOp, if_neg hne] using h, hexp⟩
    | setRunning jid =>
      by_cases hid : id = jid
      · subst hid
        have hres : getJob (applyOp s (JMOp.setRunning id)) id = some { j with status := JStatus.running } := by
          simp [getJob, applyOp, h']
        exact Or.inr ⟨_, hres, hexp⟩
      · exact Or.inr ⟨j, by simpa [getJob, applyOp, if_neg hid] using h, hexp⟩
    | emitStageUpdate jid stage status =>
      by_cases hid : id = jid
      · subst hid
        have hres : getJob (applyOp s (JMOp.emitStageUpdate id stage status)) id = some { j with stages := fun st => if st = stage then some status else j.stages st } := by
          simp [getJob, applyOp, h']
        exact Or.inr ⟨_, hres, hexp⟩
      · exact Or.inr ⟨j, by simpa [getJob, applyOp, if_neg hid] using h, hexp⟩
    | completeJob jid result degraded now =>
      by_cases hid : id = jid
      · subst hid
        have hres : getJob (applyOp s (JMOp.completeJob id result degraded now)) id = some { j with status := (if degraded ≠ [] then JStatus.degraded else JStatus.complete), result := some result, degraded := degraded, completed_at := some now } := by
          simp [getJob, applyOp, h']
        exact Or.inr ⟨_, hres, hexp⟩
      · exact Or.inr ⟨j, by simpa [getJob, applyOp, if_neg hid] using h, hexp⟩
    | failJob jid error now =>
      by_cases hid : id = jid
      · subst hid
        have hres : getJob (applyOp s (JMOp.failJob id error now)) id = some { j with status := JStatus.failed, error := some error, completed_at := some now } := by
          simp [getJob, applyOp, h']
        exact Or.inr ⟨_, hres, hexp⟩
      · exact Or.inr ⟨j, by simpa [getJob, applyOp, if_neg hid] using h, hexp⟩
    | cleanupExpiredJobs now =>
      simp only [getJob, applyOp]
      rw [h']
      dsimp only
      by_cases hlt : j.expires_at < now
      · rw [if_pos hlt]; exact Or.inl rfl
      · rw [if_neg hlt]; exact Or.inr ⟨j, rfl, hexp⟩

theorem run_preserves_expiry (id : String) (E : ℚ) :
    ∀ (ops : List JMOp) (s : JMState),
      (getJob s id = none ∨ ∃ j, getJob s id = some j ∧ j.expires_at = E) →
      (∀ op ∈ ops, opCreates id op = false) →
      getJob (applyOps s ops) id = none ∨
        ∃ j, getJob (applyOps s ops) id = some j ∧ j.expires_at = E := by
  intro ops
  induction ops with
  | nil => intro s h _; exact h
  | cons op ops ih =>
    intro s h hcreate
    exact ih (applyOp s op)
      (step_preserves_expiry id E s op h (hcreate op (List.mem_cons_self op ops)))
      (fun o ho => hcreate o (List.mem_cons_of_mem op ho))

end JobManager

/-! ### Claim C9 -/

/-- C9, as stated, is false in its second half: nothing in the repository
ever invokes `cleanup_expired_jobs`, so a job stays retrievable through
`get_job` after its TTL expiry until such a call happens.  Concretely: job
`"j"` is created at time 0 with TTL 3600 and started; the system observably
reaches time 4000 (a second job is created then), past the expiry 3600, yet
`get_job("j")` still returns the job with status `running` instead of it
being unretrievable. -/
theorem c9_job_lifecycle_counterexample :
    ∃ j, JobManager.getJob
        (JobManager.applyOps (JobManager.initialState 3600)
          [JobManager.JMOp.createJob "j" "Helsinki" "QSR" 10 false 0,
            JobManager.JMOp.setRunning "j",
            JobManager.JMOp.createJob "k" "Helsinki" "QSR" 10 false 4000]) "j"
        = some j ∧
      j.status = JobManager.JStatus.running ∧ j.expires_at = 3600 ∧
      (3600 : ℚ) < 4000 := by
  refine ⟨{ job_id := "j", status := JobManager.JStatus.running, city := "Helsinki",
            concept := "QSR", limit := 10, include_crime := false, created_at := 0,
            expires_at := 3600, stages := fun _ => none, degraded := [],
            result := none, error := none, completed_at := none },
    ?_, rfl, rfl, by norm_num⟩
  show (JobManager.applyOps _ _).jobs "j" = _
  norm_num [JobManager.applyOps, JobManager.applyOp, JobManager.initialState,
    List.foldl]
  decide

/-- C9 (amended): a job that is created and started and never receives a
completion or failure event remains retrievable through `get_job` with
status `running` as long as every `cleanup_expired_jobs` call happens at a
time not past its TTL expiry (in particular, until the expiry passes); it
stops being retrievable exactly when a `cleanup_expired_jobs` call occurs at
a time past the expiry, and stays unretrievable from then on.  (The original
claim's "after its expiry passes it is no longer retrievable" holds only
conditionally on such a cleanup call: the repository never schedules one.) -/
theorem c9_job_lifecycle (ttl t0 : ℚ) (id city concept : String) (limit : ℕ)
    (ic : Bool) (ops : List JobManager.JMOp)
    (hterm : ∀ op ∈ ops, JobManager.opTerminates id op = false)
    (hcreate : ∀ op ∈ ops, JobManager.opCreates id op = false) :
    ((∀ n, JobManager.JMOp.cleanupExpiredJobs n ∈ ops → n ≤ t0 + ttl) →
      ∃ j, JobManager.getJob
          (JobManager.applyOps (JobManager.initialState ttl)
            (JobManager.JMOp.createJob id city concept limit ic t0 ::
              JobManager.JMOp.setRunning id :: ops)) id = some j ∧
        j.status = JobManager.JStatus.running ∧ j.expires_at = t0 + ttl) ∧
    (∀ pre n post, ops = pre ++ JobManager.JMOp.cleanupExpiredJobs n :: post →
      t0 + ttl < n →
      JobManager.getJob
        (JobManager.applyOps (JobManager.initialState ttl)
          (JobManager.JMOp.createJob id city concept limit ic t0 ::
            JobManager.JMOp.setRunning id :: ops)) id = none) := by
  have hfold : ∀ more : List JobManager.JMOp,
      JobManager.applyOps (JobManager.initialState ttl)
        (JobManager.JMOp.createJob id city concept limit ic t0 ::
          JobManager.JMOp.setRunning id :: more)
      = JobManager.applyOps
          (JobManager.applyOp
            (JobManager.applyOp (JobManager.initialState ttl)
              (JobManager.JMOp.createJob id city concept limit ic t0))
            (JobManager.JMOp.setRunning id)) more := by
    intro more
    rfl
  have h2 : JobManager.getJob
      (JobManager.applyOp
        (JobManager.applyOp (JobManager.initialState ttl)
          (JobManager.JMOp.createJob id city concept limit ic t0))
        (JobManager.JMOp.setRunning id)) id
      = some { job_id := id, status := JobManager.JStatus.running, city := city,
               concept := concept, limit := limit, include_crime := ic,
               created_at := t0, expires_at := t0 + ttl, stages := fun _ => none,
               degraded := [], result := none, error := none,
               completed_at := none } := by
    show (JobManager.applyOp (JobManager.applyOp _ _) _).jobs id = _
    simp [JobManager.applyOp, JobManager.initialState]
  constructor
  · intro hclean
    rw [hfold]
    exact JobManager.run_preserves_running id (t0 + ttl) ops _ _ h2 rfl rfl
      hterm hcreate hclean
  · intro pre n post heq hn
    rw [hfold, heq]
    have happ : JobManager.applyOps
        (JobManager.applyOp
          (JobManager.applyOp (JobManager.initialState ttl)
            (JobManager.JMOp.createJob id city concept limit ic t0))
          (JobManager.JMOp.setRunning id))
        (pre ++ JobManager.JMOp.cleanupExpiredJobs n :: post)
        = JobManager.applyOps
            (JobManager.applyOp
              (JobManager.applyOps
                (JobManager.applyOp
                  (JobManager.applyOp (JobManager.initialState ttl)
                    (JobManager.JMOp.createJob id city concept limit ic t0))
                  (JobManager.JMOp.setRunning id)) pre)
              (JobManager.JMOp.cleanupExpiredJobs n)) post := by
      unfold JobManager.applyOps
      rw [List.foldl_append]
      rfl
    rw [happ]
    have hpre := JobManager.run_preserves_expiry id (t0 + ttl) pre _
      (Or.inr ⟨_, h2, rfl⟩)
      (fun op hop => hcreate op (heq ▸ List.mem_append_left _ hop))
    have hcleanstep : JobManager.getJob
        (JobManager.applyOp
          (JobManager.applyOps
            (JobManager.applyOp
              (JobManager.applyOp (JobManager.initialState ttl)
                (JobManager.JMOp.createJob id city concept limit ic t0))
              (JobManager.JMOp.setRunning id)) pre)
          (JobManager.JMOp.cleanupExpiredJobs n)) id = none := by
      rcases hpre with hnone | ⟨j, hj, hexp⟩
      · exact JobManager.step_preserves_gone id _ _ hnone rfl
      · exact JobManager.step_cleanup_removes id _ j n hj (by rw [hexp]; exact hn)
    exact JobManager.run_preserves_gone id post _ hcleanstep
      (fun op hop => hcreate op
        (heq ▸ List.mem_append_right _ (List.mem_cons_of_mem _ hop)))

/-- Witness for C9: for the concrete run that creates and starts job `"j"`
(TTL 3600 at time 0) and then cleans up at time 4000, the amended theorem
yields that the job is no longer retrievable. -/
theorem c9_job_lifecycle_witness :
    (∀ op ∈ [JobManager.JMOp.cleanupExpiredJobs 4000],
        JobManager.opTerminates "j" op = false) ∧
      (∀ op ∈ [JobManager.JMOp.cleanupExpiredJobs 4000],
        JobManager.opCreates "j" op = false) ∧
      (0 : ℚ) + 3600 < 4000 ∧
      JobManager.getJob
        (JobManager.applyOps (JobManager.initialState 3600)
          [JobManager.JMOp.createJob "j" "Helsinki" "QSR" 10 false 0,
            JobManager.JMOp.setRunning "j",
            JobManager.JMOp.cleanupExpiredJobs 4000]) "j" = none := by
  have hterm : ∀ op ∈ [JobManager.JMOp.cleanupExpiredJobs (4000 : ℚ)],
      JobManager.opTerminates "j" op = false := by
    intro op hop
    rw [List.mem_singleton] at hop
    subst hop
    rfl
  have hcreate : ∀ op ∈ [JobManager.JMOp.cleanupExpiredJobs (4000 : ℚ)],
      JobManager.opCreates "j" op = false := by
    intro op hop
    rw [List.mem_singleton] at hop
    subst hop
    rfl
  have h := (c9_job_lifecycle 3600 0 "j" "Helsinki" "QSR" 10 false
    [JobManager.JMOp.cleanupExpiredJobs 4000] hterm hcreate).2
    [] 4000 [] rfl (by norm_num)
  exact ⟨hterm, hcreate, by norm_num, h⟩

/-! ## TrustMetrics (backend/services/trust_metrics.py)

`calculate_confidence(score_components, coverage)` takes the per-factor
score dictionary and a validated `DataCoverage` pydantic model (all four
fields constrained to `[0, 1]` in `backend/models/schemas.py`).  Score
values are reals (`variance ** 0.5` is `Real.sqrt`). -/

namespace TrustMetrics

/-- `DataCoverage` (schema fields, each `ge=0, le=1` when validated). -/
structure DataCoverage where
  demographics : ℝ
  competition : ℝ
  transit : ℝ
  overall : ℝ

/-- The `score_components` dictionary: factor name to score. -/
def componentGet (sc : List (String × ℝ)) (k : String) : Option ℝ :=
  (sc.find? (fun p => p.1 == k)).map (fun p => p.2)

/-- The `required_features` list of `calculate_confidence` — feature names,
looked up (as the source does) in `score_components`. -/
def requiredFeatures : List String :=
  ["population_1km", "median_income", "competitors_count",
    "nearest_metro_distance_m", "walkability_poi_count"]

/-- `features_present` of `calculate_confidence`. -/
def featuresPresent (sc : List (String × ℝ)) : ℕ :=
  (requiredFeatures.filter (fun f => (componentGet sc f).isSome)).length

/-- The completeness term (`completeness * 0.3`,
`completeness = features_present / 5`). -/
noncomputable def completenessScore (sc : List (String × ℝ)) : ℝ :=
  (featuresPresent sc : ℝ) / 5 * 0.3

/-- Python `round(x, 2)` on a real. -/
noncomputable def pyRound2Real (x : ℝ) : ℝ :=
  ((roundHalfEven (x * 100) : ℤ) : ℝ) / 100

/-- The four component scores fed to the consistency term (`dict.get` with
default `50`). -/
def consistencyInputs (sc : List (String × ℝ)) : List ℝ :=
  [(componentGet sc "population").getD 50, (componentGet sc "income").getD 50,
    (componentGet sc "access").getD 50, (componentGet sc "competition").getD 50]

/-- `TrustMetrics.calculate_confidence`. -/
noncomputable def calculateConfidence (sc : List (String × ℝ))
    (coverage : DataCoverage) : ℝ :=
  let coverage_score := coverage.overall * 0.4
  let scores := consistencyInputs sc
  let avg_score := scores.sum / (scores.length : ℝ)
  let variance := (scores.map (fun v => (v - avg_score) ^ 2)).sum / (scores.length : ℝ)
  let std_dev := Real.sqrt variance
  let consistency := max 0 (1 - std_dev / 50)
  let consistency_score := consistency * 0.3
  let confidence := coverage_score + consistency_score + completenessScore sc
  pyRound2Real (min confidence 1.0)

theorem componentGet_eq_none (sc : List (String × ℝ)) (k : String)
    (L : List String) (hkeys : ∀ p ∈ sc, p.1 ∈ L) (hk : k ∉ L) :
    componentGet sc k = none := by
  induction sc with
  | nil => rfl
  | cons p l ih =>
    have hne : (p.1 == k) = false := by
      rw [beq_eq_false_iff_ne]
      intro hpk
      exact hk (hpk ▸ hkeys p (List.mem_cons_self p l))
    unfold componentGet
    rw [@List.find?_cons_of_neg _ (fun q => q.1 == k) p l (by simp [hne])]
    exact ih (fun q hq => hkeys q (List.mem_cons_of_mem p hq))

end TrustMetrics

theorem pyRound2Real_le_hundredth {x : ℝ} {m : ℤ}
    (h : x ≤ (m : ℝ) / 100) : TrustMetrics.pyRound2Real x ≤ (m : ℝ) / 100 := by
  have h100 : x * 100 ≤ (m : ℝ) := by linarith
  have := roundHalfEven_le_int h100
  unfold TrustMetrics.pyRound2Real
  have hc : ((roundHalfEven (x * 100) : ℤ) : ℝ) ≤ (m : ℝ) := by exact_mod_cast this
  linarith

/-! ### Claim C10 -/

/-- C10: for every input to `TrustMetrics.calculate_confidence` whose
`score_components` dictionary contains only the component-score keys
(population, income, access, competition, walkability), the completeness
term is `0` — the required-feature names are looked up in
`score_components` rather than in the features — and consequently, for any
validated `DataCoverage` (overall in `[0,1]`), the returned confidence
never exceeds `0.7`. -/
theorem c10_confidence_capped (sc : List (String × ℝ))
    (cov : TrustMetrics.DataCoverage)
    (hkeys : ∀ p ∈ sc,
      p.1 ∈ ["population", "income", "access", "competition", "walkability"])
    (hov0 : 0 ≤ cov.overall) (hov1 : cov.overall ≤ 1) :
    TrustMetrics.completenessScore sc = 0 ∧
      TrustMetrics.calculateConfidence sc cov ≤ 0.7 := by
  have hnone : ∀ k ∈ TrustMetrics.requiredFeatures,
      TrustMetrics.componentGet sc k = none := by
    intro k hkmem
    refine TrustMetrics.componentGet_eq_none sc k _ hkeys ?_
    fin_cases hkmem <;> simp
  have hpresent : TrustMetrics.featuresPresent sc = 0 := by
    unfold TrustMetrics.featuresPresent
    rw [List.length_eq_zero]
    rw [List.filter_eq_nil_iff]
    intro k hkmem
    rw [hnone k hkmem]
    simp
  have hcomp : TrustMetrics.completenessScore sc = 0 := by
    unfold TrustMetrics.completenessScore
    rw [hpresent]
    norm_num
  refine ⟨hcomp, ?_⟩
  unfold TrustMetrics.calculateConfidence
  have hcons : max 0 (1 - Real.sqrt
      (((TrustMetrics.consistencyInputs sc).map
        (fun v => (v - (TrustMetrics.consistencyInputs sc).sum /
          ((TrustMetrics.consistencyInputs sc).length : ℝ)) ^ 2)).sum /
        ((TrustMetrics.consistencyInputs sc).length : ℝ)) / 50) ≤ 1 := by
    have hs := Real.sqrt_nonneg
      (((TrustMetrics.consistencyInputs sc).map
        (fun v => (v - (TrustMetrics.consistencyInputs sc).sum /
          ((TrustMetrics.consistencyInputs sc).length : ℝ)) ^ 2)).sum /
        ((TrustMetrics.consistencyInputs sc).length : ℝ))
    exact max_le (by norm_num) (by linarith)
  have hbound : min (cov.overall * 0.4 +
      (max 0 (1 - Real.sqrt
        (((TrustMetrics.consistencyInputs sc).map
          (fun v => (v - (TrustMetrics.consistencyInputs sc).sum /
            ((TrustMetrics.consistencyInputs sc).length : ℝ)) ^ 2)).sum /
          ((TrustMetrics.consistencyInputs sc).length : ℝ)) / 50)) * 0.3 +
      TrustMetrics.completenessScore sc) 1.0 ≤ ((70 : ℤ) : ℝ) / 100 := by
    rw [hcomp]
    push_cast
    have hmin := min_le_left (cov.overall * 0.4 +
      (max 0 (1 - Real.sqrt
        (((TrustMetrics.consistencyInputs sc).map
          (fun v => (v - (TrustMetrics.consistencyInputs sc).sum /
            ((TrustMetrics.consistencyInputs sc).length : ℝ)) ^ 2)).sum /
          ((TrustMetrics.consistencyInputs sc).length : ℝ)) / 50)) * 0.3 + 0)
      1.0
    nlinarith
  have := pyRound2Real_le_hundredth hbound
  calc TrustMetrics.pyRound2Real _ ≤ ((70 : ℤ) : ℝ) / 100 := this
  _ = 0.7 := by norm_num

/-- Witness for C10: a components dictionary holding only the key
`population` with a fully-covered `DataCoverage` still caps confidence at
`0.7`, with a zero completeness term. -/
theorem c10_confidence_capped_witness :
    (∀ p ∈ [("population", (60 : ℝ))],
        (p.1 : String) ∈ ["population", "income", "access", "competition", "walkability"]) ∧
      (0 : ℝ) ≤ (1 : ℝ) ∧ (1 : ℝ) ≤ 1 ∧
      TrustMetrics.completenessScore [("population", (60 : ℝ))] = 0 ∧
      TrustMetrics.calculateConfidence [("population", (60 : ℝ))]
        { demographics := 1, competition := 1, transit := 1, overall := 1 } ≤ 0.7 := by
  have hkeys : ∀ p ∈ [("population", (60 : ℝ))],
      (p.1 : String) ∈ ["population", "income", "access", "competition", "walkability"] := by
    intro p hp
    rw [List.mem_singleton] at hp
    subst hp
    simp
  have h := c10_confidence_capped [("population", (60 : ℝ))]
    { demographics := 1, competition := 1, transit := 1, overall := 1 }
    hkeys (by norm_num) (by norm_num)
  exact ⟨hkeys, by norm_num, by norm_num, h.1, h.2⟩

end Spotlight
